import Mathlib

/-!
Verification development for the FormForgeRAGServer job/progress subsystem.

The TypeScript sources are shallowly embedded:
* JavaScript numbers are modelled as exact rationals (`ℚ`) and the integral
  results of `Math.round` as `ℤ`; byte counts and progress values in this
  code base are small integers, far below the range where IEEE-754 doubles
  deviate from exact arithmetic.
* `JSON.parse` (a language builtin) is modelled by a fuel-based recursive
  descent parser over the JSON grammar; a thrown `SyntaxError` is modelled
  as `none`.  Numeric tokens are kept as their source text because no
  claim inspects numeric values of parsed documents.
* External collaborators (the vector store, the Supabase client, the chat
  model stream, the AJV schema validator, file reads) are supplied as an
  environment record of outcomes; repository code that wraps them is
  modelled faithfully on top of that environment.
* Fire-and-forget pipelines are modelled as pure functions from the
  environment to the list of actions (socket emissions, collaborator
  calls) they perform, in order.
-/

/-! ## JSON values and `JSON.parse` -/

/-- A parsed JSON value as produced by `JSON.parse`.  Numeric literals keep
their token text: no property proved here inspects the numeric value of a
parsed document, only structure and strings. -/
inductive Json where
  | null : Json
  | bool (b : Bool) : Json
  | num (raw : String) : Json
  | str (s : String) : Json
  | arr (elems : List Json) : Json
  | obj (fields : List (String × Json)) : Json

/-- Digits of a JSON number token, ignoring sign, decimal point and
exponent part.  A JSON number denotes zero iff all of them are zero. -/
def numDigits (raw : String) : List Char :=
  (raw.data.takeWhile (fun c => c ≠ 'e' ∧ c ≠ 'E')).filter Char.isDigit

/-- JavaScript truthiness of a value returned by `JSON.parse`:
`null`, `false`, `0` and `""` are falsy, everything else is truthy. -/
def jsTruthy : Json → Bool
  | Json.null => false
  | Json.bool b => b
  | Json.num raw => (numDigits raw).any (fun c => c ≠ '0')
  | Json.str s => s ≠ ""
  | Json.arr _ => true
  | Json.obj _ => true

/-- Truthiness of a nullable JSON value (`undefined`/`null` are falsy). -/
def optTruthy : Option Json → Bool
  | none => false
  | some j => jsTruthy j

/-- JSON insignificant whitespace (space, tab, line feed, carriage return). -/
def isJsonWs (c : Char) : Bool :=
  c = ' ' || c = '\t' || c = '\n' || c = '\r'

/-- Drop leading JSON whitespace. -/
def skipWs (cs : List Char) : List Char :=
  cs.dropWhile isJsonWs

/-- Value of a hexadecimal digit. -/
def hexVal? (c : Char) : Option Nat :=
  if '0' ≤ c ∧ c ≤ '9' then some (c.toNat - '0'.toNat)
  else if 'a' ≤ c ∧ c ≤ 'f' then some (c.toNat - 'a'.toNat + 10)
  else if 'A' ≤ c ∧ c ≤ 'F' then some (c.toNat - 'A'.toNat + 10)
  else none

/-- Parse the body of a JSON string literal (the opening quote already
consumed); returns the decoded characters and the input after the closing
quote.  `fuel` dominates the input length.  JS strings are UTF-16; a
`\u` escape denoting a lone surrogate has no `Char` counterpart and is
rejected here — no input in this development uses one. -/
def parseStringBody : Nat → List Char → Option (List Char × List Char)
  | 0, _ => none
  | _, [] => none
  | Nat.succ fuel, c :: cs =>
    if c = '"' then some ([], cs)
    else if c = '\\' then
      match cs with
      | [] => none
      | e :: cs2 =>
        if e = '"' then (parseStringBody fuel cs2).map (fun p => ('"' :: p.1, p.2))
        else if e = '\\' then (parseStringBody fuel cs2).map (fun p => ('\\' :: p.1, p.2))
        else if e = '/' then (parseStringBody fuel cs2).map (fun p => ('/' :: p.1, p.2))
        else if e = 'b' then (parseStringBody fuel cs2).map (fun p => (Char.ofNat 8 :: p.1, p.2))
        else if e = 'f' then (parseStringBody fuel cs2).map (fun p => (Char.ofNat 12 :: p.1, p.2))
        else if e = 'n' then (parseStringBody fuel cs2).map (fun p => ('\n' :: p.1, p.2))
        else if e = 'r' then (parseStringBody fuel cs2).map (fun p => ('\r' :: p.1, p.2))
        else if e = 't' then (parseStringBody fuel cs2).map (fun p => ('\t' :: p.1, p.2))
        else if e = 'u' then
          match cs2 with
          | h1 :: h2 :: h3 :: h4 :: cs3 =>
            match hexVal? h1, hexVal? h2, hexVal? h3, hexVal? h4 with
            | some a, some b, some c2, some d2 =>
              let n := ((a * 16 + b) * 16 + c2) * 16 + d2
              if n < 0xd800 ∨ (0xe000 ≤ n ∧ n < 0x110000) then
                (parseStringBody fuel cs3).map (fun p => (Char.ofNat n :: p.1, p.2))
              else none
            | _, _, _, _ => none
          | _ => none
        else none
    else if c.toNat < 32 then none
    else (parseStringBody fuel cs).map (fun p => (c :: p.1, p.2))

/-- Parse the fraction part of a JSON number, if present. -/
def pFrac : List Char → Option (List Char × List Char)
  | '.' :: r =>
    let fd := r.takeWhile Char.isDigit
    if fd.isEmpty then none else some ('.' :: fd, r.dropWhile Char.isDigit)
  | cs => some ([], cs)

/-- Parse the exponent part of a JSON number, if present. -/
def pExp : List Char → Option (List Char × List Char)
  | [] => some ([], [])
  | c :: r =>
    if c = 'e' ∨ c = 'E' then
      let signed : List Char × List Char :=
        match r with
        | x :: r2 => if x = '+' ∨ x = '-' then ([x], r2) else ([], r)
        | [] => ([], r)
      let ed := signed.2.takeWhile Char.isDigit
      if ed.isEmpty then none
      else some (c :: signed.1 ++ ed, signed.2.dropWhile Char.isDigit)
    else some ([], c :: r)

/-- Parse a JSON number token; returns its source text and the rest. -/
def pNumber (cs : List Char) : Option (List Char × List Char) :=
  let signed : List Char × List Char :=
    match cs with
    | '-' :: r => (['-'], r)
    | _ => ([], cs)
  match signed.2 with
  | [] => none
  | d :: _ =>
    if ¬ d.isDigit then none
    else
      let intDigits := signed.2.takeWhile Char.isDigit
      let cs2 := signed.2.dropWhile Char.isDigit
      if d = '0' ∧ intDigits.length > 1 then none
      else
        match pFrac cs2 with
        | none => none
        | some (fracT, cs3) =>
          match pExp cs3 with
          | none => none
          | some (expT, cs4) =>
            some (signed.1 ++ intDigits ++ fracT ++ expT, cs4)

/-- Insert a parsed object member the way JavaScript property assignment
does: a repeated key keeps its first position but takes the last value. -/
def objInsert : List (String × Json) → String → Json → List (String × Json)
  | [], k, v => [(k, v)]
  | (k1, v1) :: rest, k, v =>
    if k1 = k then (k1, v) :: rest else (k1, v1) :: objInsert rest k v

mutual

/-- Parse one JSON value (leading whitespace allowed). -/
def pValue : Nat → List Char → Option (Json × List Char)
  | 0, _ => none
  | Nat.succ fuel, cs =>
    match skipWs cs with
    | [] => none
    | c :: cs1 =>
      if c = '{' then pObject fuel cs1
      else if c = '[' then pArray fuel cs1
      else if c = '"' then
        (parseStringBody (cs1.length + 1) cs1).map
          (fun p => (Json.str (String.mk p.1), p.2))
      else if "true".data.isPrefixOf (c :: cs1) then
        some (Json.bool true, (c :: cs1).drop 4)
      else if "false".data.isPrefixOf (c :: cs1) then
        some (Json.bool false, (c :: cs1).drop 5)
      else if "null".data.isPrefixOf (c :: cs1) then
        some (Json.null, (c :: cs1).drop 4)
      else
        (pNumber (c :: cs1)).map (fun p => (Json.num (String.mk p.1), p.2))

/-- Parse an object body, the opening brace already consumed. -/
def pObject : Nat → List Char → Option (Json × List Char)
  | 0, _ => none
  | Nat.succ fuel, cs =>
    match skipWs cs with
    | '}' :: r => some (Json.obj [], r)
    | _ => pMembers fuel [] cs

/-- Parse the members of a non-empty object body. -/
def pMembers : Nat → List (String × Json) → List Char → Option (Json × List Char)
  | 0, _, _ => none
  | Nat.succ fuel, acc, cs =>
    match skipWs cs with
    | '"' :: cs1 =>
      match parseStringBody (cs1.length + 1) cs1 with
      | none => none
      | some (key, cs2) =>
        match skipWs cs2 with
        | ':' :: cs3 =>
          match pValue fuel cs3 with
          | none => none
          | some (v, cs4) =>
            let acc2 := objInsert acc (String.mk key) v
            match skipWs cs4 with
            | ',' :: cs5 => pMembers fuel acc2 cs5
            | '}' :: cs5 => some (Json.obj acc2, cs5)
            | _ => none
        | _ => none
    | _ => none

/-- Parse an array body, the opening bracket already consumed. -/
def pArray : Nat → List Char → Option (Json × List Char)
  | 0, _ => none
  | Nat.succ fuel, cs =>
    match skipWs cs with
    | ']' :: r => some (Json.arr [], r)
    | _ => pElems fuel [] cs

/-- Parse the elements of a non-empty array body. -/
def pElems : Nat → List Json → List Char → Option (Json × List Char)
  | 0, _, _ => none
  | Nat.succ fuel, acc, cs =>
    match pValue fuel cs with
    | none => none
    | some (v, cs1) =>
      match skipWs cs1 with
      | ',' :: cs2 => pElems fuel (acc ++ [v]) cs2
      | ']' :: cs2 => some (Json.arr (acc ++ [v]), cs2)
      | _ => none

end

/-- Model of the JavaScript builtin `JSON.parse`: `none` models a thrown
`SyntaxError`.  The fuel `2 * length + 4` always suffices because at
least one input character is consumed for every two units spent. -/
def jsonParse (s : String) : Option Json :=
  match pValue (2 * s.data.length + 4) s.data with
  | some (v, rest) => if skipWs rest = [] then some v else none
  | none => none

example : jsonParse "null" = some Json.null := by rfl
example : jsonParse " \x7b\"a\": [1, true], \"b\": \"x\" \x7d " =
    some (Json.obj [("a", Json.arr [Json.num "1", Json.bool true]), ("b", Json.str "x")]) := by
  rfl
example : jsonParse "\x7b\"a\":1" = none := by rfl
example : jsonParse "\"``````\"" = some (Json.str "``````") := by rfl

/-! ## `extractJsonFromText` and its helpers

Models `extractJsonFromText` (uploadProgressService.ts lines 656-709 of the
concatenated sources) together with the regex and string operations it uses.
-/

/-- JavaScript whitespace: the characters matched by `\s` and removed by
`String.prototype.trim`. -/
def isJsWs (c : Char) : Bool :=
  c = ' ' || c = '\t' || c = '\n' || c.toNat = 11 || c.toNat = 12 || c = '\r' ||
  c.toNat = 0xa0 || c.toNat = 0x1680 || (0x2000 ≤ c.toNat && c.toNat ≤ 0x200a) ||
  c.toNat = 0x2028 || c.toNat = 0x2029 || c.toNat = 0x202f || c.toNat = 0x205f ||
  c.toNat = 0x3000 || c.toNat = 0xfeff

/-- `String.prototype.trim`. -/
def jsTrim (cs : List Char) : List Char :=
  ((cs.dropWhile isJsWs).reverse.dropWhile isJsWs).reverse

/-- Three backticks, the code-fence delimiter. -/
def ticks : List Char := ['`', '`', '`']

/-- Split the input before its first occurrence of three consecutive
backticks: returns the text before the fence and the text after it. -/
def splitAtTicks : List Char → Option (List Char × List Char)
  | [] => none
  | c :: rest =>
    if ticks.isPrefixOf (c :: rest) then some ([], rest.drop 2)
    else
      match splitAtTicks rest with
      | none => none
      | some (a, b) => some (c :: a, b)

/-- The capture group of the first match of `/```(?:json)?([\s\S]*?)```/`.
The scan tries each start position left to right; at a position opening with
three backticks the greedy `(?:json)?` consumes a following `json` tag when
present (`j`, `s`, `o`, `n` are not backticks, so consuming it never loses a
match the empty alternative would find), and the lazy capture ends at the
next triple backtick. -/
def fencedCapture : List Char → Option (List Char)
  | [] => none
  | c :: rest =>
    if ticks.isPrefixOf (c :: rest) then
      let r := rest.drop 2
      let r2 := if "json".data.isPrefixOf r then r.drop 4 else r
      match splitAtTicks r2 with
      | some (cap, _) => some cap
      | none => fencedCapture rest
    else fencedCapture rest

/-- One step pool of `.replace(/,\s*}/g, close)`: every iteration consumes at
least one character, so fuel equal to the input length always suffices. -/
def stripCommaGo (close : Char) : Nat → List Char → List Char
  | 0, cs => cs
  | Nat.succ fuel, cs =>
    match cs with
    | [] => []
    | c :: rest =>
      if c = ',' then
        match rest.dropWhile isJsWs with
        | c2 :: rest2 =>
          if c2 = close then close :: stripCommaGo close fuel rest2
          else c :: stripCommaGo close fuel rest
        | [] => c :: stripCommaGo close fuel rest
      else c :: stripCommaGo close fuel rest

/-- Global replace of a comma, optional whitespace and `close` by `close`
alone: models `.replace(/,\s*}/g, "}")` and its `]` twin. -/
def stripCommaBefore (close : Char) (cs : List Char) : List Char :=
  stripCommaGo close cs.length cs

/-- Word characters of the key-quoting regex (`[a-zA-Z0-9_]`). -/
def isWordChar (c : Char) : Bool :=
  ('a' ≤ c && c ≤ 'z') || ('A' ≤ c && c ≤ 'Z') || ('0' ≤ c && c ≤ '9') || c = '_'

/-- A single or double quote, the character class `['"]`. -/
def isQuoteChar (c : Char) : Bool := c = '\'' || c = '"'

/-- One attempt of `/(['"])?([a-zA-Z0-9_]+)(['"])?:\s*/` at the current
position, returning the replacement `"$2": ` and the input after the match.
Greedy sub-matches with backtracking collapse to this deterministic check:
if the optional opening quote is consumed the key must start right after it,
and after the maximal word run only a quote directly followed by a colon, or
a colon itself, lets the match succeed. -/
def tryKeyMatch (cs : List Char) : Option (List Char × List Char) :=
  let afterQ :=
    match cs with
    | c :: r => if isQuoteChar c then r else cs
    | [] => cs
  let word := afterQ.takeWhile isWordChar
  if word.isEmpty then none
  else
    match afterQ.dropWhile isWordChar with
    | [] => none
    | c2 :: rest1 =>
      if isQuoteChar c2 then
        match rest1 with
        | ':' :: rest2 => some ('"' :: word ++ ['"', ':', ' '], rest2.dropWhile isJsWs)
        | _ => none
      else if c2 = ':' then some ('"' :: word ++ ['"', ':', ' '], rest1.dropWhile isJsWs)
      else none

/-- Driver of the global key-quoting replace; every match consumes at least
two characters, so fuel equal to the input length always suffices. -/
def quoteKeysGo : Nat → List Char → List Char
  | 0, cs => cs
  | Nat.succ fuel, cs =>
    match cs with
    | [] => []
    | c :: rest =>
      match tryKeyMatch (c :: rest) with
      | some (repl, after) => repl ++ quoteKeysGo fuel after
      | none => c :: quoteKeysGo fuel rest

/-- Models `.replace(/(['"])?([a-zA-Z0-9_]+)(['"])?:\s*/g, '"$2": ')`. -/
def quoteKeys (cs : List Char) : List Char :=
  quoteKeysGo cs.length cs

/-- The repair applied to a fenced capture whose first parse failed
(lines 668-672): trim, strip trailing commas before `}` and before `]`,
then force keys into double quotes. -/
def cleanFencedJson (cap : List Char) : List Char :=
  quoteKeys (stripCommaBefore ']' (stripCommaBefore '}' (jsTrim cap)))

/-- `extractJsonFromText` (lines 656-709): the fenced-block strategies run
only when the capture group is truthy, i.e. non-empty; otherwise the whole
trimmed text is parsed.  Every `JSON.parse` call in the source sits in a
`try`/`catch` that turns a throw into `null`, modelled by `Option`. -/
def extractJsonFromText (text : String) : Option Json :=
  match fencedCapture text.data with
  | some cap =>
    if ¬ cap.isEmpty then
      match jsonParse (String.mk (jsTrim cap)) with
      | some j => some j
      | none =>
        match jsonParse (String.mk (cleanFencedJson cap)) with
        | some j => some j
        | none => none
    else jsonParse (String.mk (jsTrim text.data))
  | none => jsonParse (String.mk (jsTrim text.data))

/-- The extraction procedure exactly as claim C8 words it: when a fenced
block exists, only its interior (raw, then repaired) is ever parsed; the
whole text is parsed only when no fenced block exists. -/
def extractJsonClaimOrder (text : String) : Option Json :=
  match fencedCapture text.data with
  | some cap =>
    (jsonParse (String.mk (jsTrim cap))).orElse
      (fun _ => jsonParse (String.mk (cleanFencedJson cap)))
  | none => jsonParse (String.mk (jsTrim text.data))

/-- First success of an ordered list of extraction strategies. -/
def firstSuccess : List (Option Json) → Option Json
  | [] => none
  | s :: rest =>
    match s with
    | some j => some j
    | none => firstSuccess rest

/-- The ordered strategies that are applicable to a given text, under the
amended gating: the fenced strategies require a fenced block with non-empty
interior, the whole-text strategy runs otherwise. -/
def extractStrategyList (text : String) : List (Option Json) :=
  match fencedCapture text.data with
  | some cap =>
    if ¬ cap.isEmpty then
      [jsonParse (String.mk (jsTrim cap)), jsonParse (String.mk (cleanFencedJson cap))]
    else [jsonParse (String.mk (jsTrim text.data))]
  | none => [jsonParse (String.mk (jsTrim text.data))]

example : extractJsonFromText "```json\n\x7b\"a\": 1\x7d\n```" =
    some (Json.obj [("a", Json.num "1")]) := by rfl
example : extractJsonFromText "```json\n\x7b\"a\": 1,\x7d\n```" =
    some (Json.obj [("a", Json.num "1")]) := by rfl
example : extractJsonFromText "\x7b\"a\":1" = none := by rfl
example : extractJsonFromText "\"``````\"" = some (Json.str "``````") := by rfl
example : extractJsonClaimOrder "\"``````\"" = none := by rfl

/-! ## Upload progress service

Models `uploadProgressService.ts` (lines 8-125): a `Map` from upload id to
progress data, and the service functions that mutate it and emit socket
events.  Each function returns the new map together with the emissions it
performed, in order.
-/

/-- JavaScript `Map.get`. -/
def jsMapGet {α : Type} (m : List (String × α)) (k : String) : Option α :=
  (m.find? (fun p => p.1 = k)).map (fun p => p.2)

/-- JavaScript `Map.set`: an existing key keeps its position and takes the
new value, a new key is appended. -/
def jsMapSet {α : Type} : List (String × α) → String → α → List (String × α)
  | [], k, v => [(k, v)]
  | (k1, v1) :: rest, k, v =>
    if k1 = k then (k1, v) :: rest else (k1, v1) :: jsMapSet rest k v

/-- JavaScript truthiness of a possibly-absent string. -/
def optStrTruthy : Option String → Bool
  | none => false
  | some s => s ≠ ""

/-- `Math.round`, which rounds half toward positive infinity. -/
def jsRound (q : ℚ) : ℤ := ⌊q + 1 / 2⌋

/-- The result metadata the file controller merges into a completed upload
(`fileController.ts` lines 106-111). -/
structure ResultData where
  message : String
  filename : String
  fileId : String
  status : String
deriving DecidableEq, Repr

/-- One entry of `uploadProgressMap` (lines 8-21).  A field that the stored
object literal omits is `none`. -/
structure UploadData where
  bytesReceived : ℚ
  bytesExpected : ℚ
  percent : ℤ
  completed : Bool
  error : Option String := none
  createdAt : ℤ
  resultData : Option ResultData := none
deriving DecidableEq, Repr

/-- Target of a socket.io emission: a room broadcast or a single socket. -/
inductive Dest where
  | room (name : String)
  | sock (sid : Nat)
deriving DecidableEq, Repr

/-- Upload-session events with their payloads.  `uploadComplete` carries the
stored data and the spread result metadata (`{...completeData, ...resultData}`). -/
inductive UpEvent where
  | uploadProgress (uploadId : String) (d : UploadData)
  | uploadComplete (uploadId : String) (d : UploadData) (r : Option ResultData)
  | uploadError (uploadId : String) (error : String)
deriving DecidableEq, Repr

/-- An emission: an event sent to a destination. -/
structure Emission where
  dest : Dest
  ev : UpEvent
deriving DecidableEq, Repr

/-- `initUploadProgress` (lines 27-39): store zeroed progress, emit nothing. -/
def initUploadProgress (m : List (String × UploadData)) (uploadId : String)
    (now : ℤ) : List (String × UploadData) :=
  jsMapSet m uploadId
    { bytesReceived := 0, bytesExpected := 0, percent := 0, completed := false,
      createdAt := now }

/-- `updateUploadProgress` (lines 47-67): recompute the percentage, replace
the stored entry (the new object literal has no `error`/`resultData`
fields) and broadcast `uploadProgress` to the upload's room.
`currentData?.createdAt || Date.now()` falls back on a falsy (zero)
timestamp, as JavaScript `||` does. -/
def updateUploadProgress (m : List (String × UploadData)) (uploadId : String)
    (bytesReceived bytesExpected : ℚ) (now : ℤ) :
    List (String × UploadData) × List Emission :=
  let percent : ℤ :=
    if bytesExpected > 0 then jsRound (bytesReceived / bytesExpected * 100) else 0
  let currentData := jsMapGet m uploadId
  let progressData : UploadData :=
    { bytesReceived := bytesReceived, bytesExpected := bytesExpected,
      percent := percent,
      completed := decide (bytesReceived = bytesExpected ∧ bytesExpected > 0),
      createdAt :=
        match currentData with
        | some d => if d.createdAt = 0 then now else d.createdAt
        | none => now }
  (jsMapSet m uploadId progressData,
   [⟨Dest.room ("upload:" ++ uploadId), UpEvent.uploadProgress uploadId progressData⟩])

/-- `completeUpload` (lines 74-87): only when the id is tracked, mark the
entry complete at 100 percent, store the result data and broadcast
`uploadComplete`; otherwise do nothing at all. -/
def completeUpload (m : List (String × UploadData)) (uploadId : String)
    (resultData : Option ResultData) :
    List (String × UploadData) × List Emission :=
  match jsMapGet m uploadId with
  | some progress =>
    let completeData : UploadData :=
      { progress with completed := true, percent := 100, resultData := resultData }
    (jsMapSet m uploadId completeData,
     [⟨Dest.room ("upload:" ++ uploadId),
       UpEvent.uploadComplete uploadId completeData resultData⟩])
  | none => (m, [])

/-- `failUpload` (lines 94-105): only when the id is tracked, record the
error message and broadcast `uploadError`; otherwise do nothing at all. -/
def failUpload (m : List (String × UploadData)) (uploadId : String)
    (errorMessage : String) :
    List (String × UploadData) × List Emission :=
  match jsMapGet m uploadId with
  | some progress =>
    let errorData : UploadData := { progress with error := some errorMessage }
    (jsMapSet m uploadId errorData,
     [⟨Dest.room ("upload:" ++ uploadId), UpEvent.uploadError uploadId errorMessage⟩])
  | none => (m, [])

/-- `getUploadProgress` (lines 112-114). -/
def getUploadProgress (m : List (String × UploadData)) (uploadId : String) :
    Option UploadData :=
  jsMapGet m uploadId

/-! ## Socket join handlers (replay-on-join)

Models the `joinUploadRoom` and `joinWorkoutPlanRoom` connection handlers
(`socketService.ts` lines 26-53 and 61-78).  `socket.emit` targets only the
joining socket, modelled as `Dest.sock`.
-/

/-- `joinUploadRoom` (lines 26-53): replay the current snapshot, and the
terminal event when the snapshot is terminal, to the joining socket only.
The `completed` branch is checked before the `error` truthiness check. -/
def joinUploadRoom (m : List (String × UploadData)) (sid : Nat)
    (uploadId : String) : List Emission :=
  match getUploadProgress m uploadId with
  | some uploadData =>
    ⟨Dest.sock sid, UpEvent.uploadProgress uploadId uploadData⟩ ::
    (if uploadData.completed then
       [⟨Dest.sock sid, UpEvent.uploadComplete uploadId uploadData uploadData.resultData⟩]
     else if optStrTruthy uploadData.error then
       [⟨Dest.sock sid, UpEvent.uploadError uploadId (uploadData.error.getD "")⟩]
     else [])
  | none => []

/-- One entry of the generation-status registry
(`WorkoutPlanGenerationStatus`, workoutPlanTypes.ts).  The `status` string
ranges over queued / accepted / generating / completed / failed. -/
structure WorkoutPlanGenerationStatus where
  planId : String
  status : String
  progress : Int
  step : String
  message : Option String := none
  error : Option String := none
  result : Option Json := none

/-- `getWorkoutPlanStatus` reads the `workoutPlanProgress` map (lines
217-228).  In the iteration under verification nothing ever writes this
map; the handler below is therefore modelled over an arbitrary map state. -/
def getWorkoutPlanStatus (m : List (String × WorkoutPlanGenerationStatus))
    (planId : String) : Option WorkoutPlanGenerationStatus :=
  jsMapGet m planId

/-- Workout-plan events as emitted with a full status record as payload. -/
inductive WpEvent where
  | workoutPlanProgress (st : WorkoutPlanGenerationStatus)
  | workoutPlanComplete (st : WorkoutPlanGenerationStatus)
  | workoutPlanError (st : WorkoutPlanGenerationStatus)

/-- An emission of a workout-plan event. -/
structure WpEmission where
  dest : Dest
  ev : WpEvent

/-- `joinWorkoutPlanRoom` (lines 61-78): replay the current status, and the
terminal event when the status is terminal, to the joining socket only. -/
def joinWorkoutPlanRoom (m : List (String × WorkoutPlanGenerationStatus))
    (sid : Nat) (planId : String) : List WpEmission :=
  match getWorkoutPlanStatus m planId with
  | some planStatus =>
    ⟨Dest.sock sid, WpEvent.workoutPlanProgress planStatus⟩ ::
    (if planStatus.status = "completed" then
       [⟨Dest.sock sid, WpEvent.workoutPlanComplete planStatus⟩]
     else if planStatus.status = "failed" then
       [⟨Dest.sock sid, WpEvent.workoutPlanError planStatus⟩]
     else [])
  | none => []

/-! ## Generation pipeline

Models `generateWorkoutPlan` and its retrieval helpers (workoutPlanService
iteration at lines 190-1033 of the concatenated sources).  External
collaborators are an environment of call outcomes; the pipeline result is
the ordered list of collaborator calls and socket emissions it performs.
-/

/-- A retrieved document: its text and the `fileId` field of its metadata
(`none` when the metadata carries no such field). -/
structure Doc where
  pageContent : String
  fileId : Option String
deriving DecidableEq, Repr

/-- Outcomes of the external collaborators used by one generation job:
the vector store similarity search (by requested count), the direct
Supabase metadata query, the prompt/schema file loads, the chat-model
stream (the accumulated full text), the AJV schema validation and the
Supabase save.  An `Except.error` models a throw/rejection; callers that
replace the message keep only `Unit`. -/
structure GenEnv where
  similaritySearch : Nat → Except Unit (List Doc)
  directQuery : Except Unit (List Doc)
  promptLoad : Except Unit Unit
  streamChat : Except String String
  validatePlan : Json → Except String Bool
  savePlan : Except String Unit

/-- Input of a generation request (`WorkoutPlanInput`).  `optionsTopK`
models `options?.topK`: `none` when `options` or `topK` is absent. -/
structure WorkoutPlanInput where
  query : String
  fileIds : List String
  optionsTopK : Option Nat := none

/-- `options?.topK || 8`: JavaScript `||` also replaces a zero. -/
def genTopK (input : WorkoutPlanInput) : Nat :=
  match input.optionsTopK with
  | some k => if k = 0 then 8 else k
  | none => 8

/-- Payload of a workout-plan event as the pipeline builds it: object
literals omit fields freely, an omitted field is `none`. -/
structure GenPayload where
  planId : String
  status : Option String := none
  progress : Option Int := none
  step : Option String := none
  message : Option String := none
  error : Option String := none
  result : Option Json := none

/-- A workout-plan event emitted by the pipeline (all are room broadcasts
through the `emitWorkoutPlan*` helpers of socketService). -/
inductive GenEvent where
  | workoutPlanProgress (p : GenPayload)
  | workoutPlanComplete (p : GenPayload)
  | workoutPlanError (p : GenPayload)

/-- One step of a generation job: a socket emission or a collaborator call. -/
inductive GenAction where
  | emit (e : GenEvent)
  | callSimilaritySearch (k : Nat)
  | callDirectQuery
  | callStream
  | callSave

/-- The metadata filter of `getDocumentsFromFileIds` (line 310-314):
`fileId && fileIds.includes(fileId)` — the id must be present, truthy
(non-empty) and among the caller-supplied ids. -/
def fileIdMatches (fileIds : List String) (doc : Doc) : Bool :=
  match doc.fileId with
  | some fid => fid ≠ "" && fileIds.contains fid
  | none => false

/-- `getDocumentsFromFileIds` (lines 295-322): similarity-search five times
the requested count, filter by the supplied file ids, truncate to `topK`.
The `catch` replaces any search failure by a fixed message. -/
def getDocumentsFromFileIds (env : GenEnv) (fileIds : List String)
    (topK : Nat) : List GenAction × Except String (List Doc) :=
  let fetchCount := topK * 5
  ([GenAction.callSimilaritySearch fetchCount],
   match env.similaritySearch fetchCount with
   | Except.ok documents =>
     Except.ok ((documents.filter (fileIdMatches fileIds)).take topK)
   | Except.error _ => Except.error "Failed to retrieve documents by file IDs")

/-- `getDocumentsDirectlyFromSupabase` (lines 328-358): a direct metadata
lookup; the `catch` replaces any failure by a fixed message. -/
def getDocumentsDirectlyFromSupabase (env : GenEnv) :
    List GenAction × Except String (List Doc) :=
  ([GenAction.callDirectQuery],
   match env.directQuery with
   | Except.ok docs => Except.ok docs
   | Except.error _ => Except.error "Failed to retrieve documents from database")

/-- The circuit literal used for Day 1 (and repeated verbatim for Day 5)
of the hand-authored fallback plan (lines 519-543). -/
def strengthCircuitA : Json :=
  Json.obj
    [("routine_name", Json.str "Strength Circuit A"),
     ("routine_type", Json.str "Circuit"),
     ("duration", Json.str "3 rounds"),
     ("exercises_in_routine", Json.arr
       [Json.obj
          [("exercise_name", Json.str "Push-up"),
           ("sets", Json.str "Max"),
           ("reps", Json.null),
           ("rest_after_exercise", Json.str "60 seconds")],
        Json.obj
          [("exercise_name", Json.str "Bodyweight Squat"),
           ("sets", Json.str "Max"),
           ("reps", Json.null),
           ("rest_after_exercise", Json.str "60 seconds")],
        Json.obj
          [("exercise_name", Json.str "Plank"),
           ("sets", Json.str "Max"),
           ("duration", Json.str "30 seconds"),
           ("rest_after_exercise", Json.str "60 seconds")]])]

/-- `generateMinimalValidPlan` (lines 459-649): the hand-authored,
schema-conformant fallback plan, transcribed field by field. -/
def generateMinimalValidPlan : Json :=
  Json.obj
    [("program_name", Json.str "Basic Calisthenics Training Program"),
     ("program_goal", Json.str "Build fundamental strength and movement skills"),
     ("program_description", Json.str
       "A simplified program focusing on essential bodyweight exercises to develop basic strength and movement patterns."),
     ("required_gear", Json.arr [Json.str "None - bodyweight only"]),
     ("exercises", Json.arr
       [Json.obj
          [("exercise_name", Json.str "Push-up"),
           ("exercise_type", Json.str "Basics"),
           ("description", Json.str
             "Standard push-up with hands shoulder-width apart, body in a straight line, and lowering the chest to the ground."),
           ("target_muscles", Json.arr
             [Json.str "Chest", Json.str "Shoulders", Json.str "Triceps", Json.str "Core"])],
        Json.obj
          [("exercise_name", Json.str "Bodyweight Squat"),
           ("exercise_type", Json.str "Basics"),
           ("description", Json.str
             "Standing with feet shoulder-width apart, lower your body by bending knees and hips as if sitting in a chair, then return to standing."),
           ("target_muscles", Json.arr
             [Json.str "Quadriceps", Json.str "Glutes", Json.str "Hamstrings", Json.str "Core"])],
        Json.obj
          [("exercise_name", Json.str "Plank"),
           ("exercise_type", Json.str "Static Hold"),
           ("description", Json.str
             "Support your body on forearms and toes, maintaining a straight line from head to heels."),
           ("target_muscles", Json.arr
             [Json.str "Core", Json.str "Shoulders", Json.str "Back"])],
        Json.obj
          [("exercise_name", Json.str "Pull-up (Assisted)"),
           ("exercise_type", Json.str "Basics"),
           ("description", Json.str
             "Hanging from a bar, pull yourself up until your chin is over the bar, using a resistance band for assistance."),
           ("target_muscles", Json.arr
             [Json.str "Back", Json.str "Biceps", Json.str "Forearms"]),
           ("progressions", Json.arr
             [Json.obj
                [("level_name", Json.str "Resistance Band Assisted"),
                 ("description", Json.str "Use a resistance band for help.")]])],
        Json.obj
          [("exercise_name", Json.str "Lunge"),
           ("exercise_type", Json.str "Basics"),
           ("description", Json.str
             "Step forward with one leg, lowering your hips until both knees are bent at a roughly 90-degree angle."),
           ("target_muscles", Json.arr
             [Json.str "Quadriceps", Json.str "Glutes", Json.str "Hamstrings"])]]),
     ("workout_plan", Json.obj
       [("structure_type", Json.str "Weekly Split"),
        ("schedule", Json.arr
          [Json.obj
             [("day", Json.str "Day 1"),
              ("focus", Json.str "Full Body Strength"),
              ("routines", Json.arr [strengthCircuitA])],
           Json.obj
             [("day", Json.str "Day 2"),
              ("focus", Json.str "Rest"),
              ("routines", Json.arr [])],
           Json.obj
             [("day", Json.str "Day 3"),
              ("focus", Json.str "Full Body Strength"),
              ("routines", Json.arr
                [Json.obj
                   [("routine_name", Json.str "Strength Circuit B"),
                    ("routine_type", Json.str "Circuit"),
                    ("duration", Json.str "3 rounds"),
                    ("exercises_in_routine", Json.arr
                      [Json.obj
                         [("exercise_name", Json.str "Pull-up (Assisted)"),
                          ("progression_level", Json.str "Resistance Band Assisted"),
                          ("sets", Json.str "Max"),
                          ("reps", Json.null),
                          ("rest_after_exercise", Json.str "60 seconds")],
                       Json.obj
                         [("exercise_name", Json.str "Lunge"),
                          ("sets", Json.str "Max"),
                          ("reps", Json.str "10 per leg"),
                          ("rest_after_exercise", Json.str "60 seconds")],
                       Json.obj
                         [("exercise_name", Json.str "Plank"),
                          ("sets", Json.str "Max"),
                          ("duration", Json.str "30 seconds"),
                          ("rest_after_exercise", Json.str "60 seconds")]])]])],
           Json.obj
             [("day", Json.str "Day 4"),
              ("focus", Json.str "Active Recovery"),
              ("routines", Json.arr
                [Json.obj
                   [("routine_name", Json.str "Light Mobility"),
                    ("routine_type", Json.str "Other"),
                    ("exercises_in_routine", Json.arr [])]])],
           Json.obj
             [("day", Json.str "Day 5"),
              ("focus", Json.str "Full Body Strength"),
              ("routines", Json.arr [strengthCircuitA])],
           Json.obj
             [("day", Json.str "Day 6"),
              ("focus", Json.str "Rest"),
              ("routines", Json.arr [])],
           Json.obj
             [("day", Json.str "Day 7"),
              ("focus", Json.str "Rest"),
              ("routines", Json.arr [])]])]),
     ("nutrition_advice", Json.obj
       [("overview", Json.str
         "Focus on a balanced diet with sufficient protein for muscle recovery.")]),
     ("hydration_advice", Json.obj
       [("overview", Json.str
         "Stay well-hydrated throughout the day, especially around workouts."),
        ("recommended_intake", Json.str
         "Aim for 2-3 liters of water daily, adjusting based on activity level.")])]

/-- The error payload built by the outer `catch` of `generateWorkoutPlan`
(lines 1021-1031). -/
def genCatchAll (planId msg : String) : GenAction :=
  GenAction.emit (GenEvent.workoutPlanError
    { planId := planId, error := some msg, status := some "failed",
      progress := some 0, step := some "Error during generation process",
      message := some "Workout plan generation failed." })

/-- The parse / validate / fall back / save / finalize stages of
`generateWorkoutPlan` (lines 880-1012), starting from the accumulated
model response text.  `usedFallback` mirrors the reference comparison
`finalPlan === parsedPlan` of the source: the fallback literal is a fresh
object, so the comparison is true exactly when validation succeeded on the
parsed plan. -/
def genFinalize (env : GenEnv) (planId : String)
    (completeResponseText : String) : List GenAction :=
  let parsedPlan := extractJsonFromText completeResponseText
  let parsingError : Option String :=
    if optTruthy parsedPlan then none
    else some "Failed to extract valid JSON from the LLM response (extractJsonFromText returned null)."
  let step2 : Json × Bool × Option String :=
    match parsedPlan with
    | some j =>
      if jsTruthy j then
        match env.validatePlan j with
        | Except.ok true => (j, false, none)
        | Except.ok false => (generateMinimalValidPlan, true, some "Schema validation failed.")
        | Except.error e => (generateMinimalValidPlan, true, some e)
      else (generateMinimalValidPlan, true, none)
    | none => (generateMinimalValidPlan, true, none)
  let finalPlan := step2.1
  let usedFallback := step2.2.1
  let validationError := step2.2.2
  GenAction.callSave ::
  match env.savePlan with
  | Except.ok _ =>
    let finalErrorMessage : Option String :=
      match parsingError with
      | some pe => some ("Parsing failed: " ++ pe)
      | none =>
        match validationError with
        | some ve => some ("Validation failed: " ++ ve)
        | none => none
    let finalMessage : String :=
      if parsingError = none ∧ validationError = none ∧ usedFallback = false then
        "Workout plan generated and validated successfully."
      else if usedFallback then
        "Workout plan generation had issues (parsing or validation failed), using fallback plan."
      else "Workout plan generation completed with errors."
    [GenAction.emit (GenEvent.workoutPlanComplete
      { planId := planId, status := some "completed", progress := some 100,
        step := some "Workout plan generation completed and saved",
        result := some finalPlan, message := some finalMessage,
        error := finalErrorMessage })]
  | Except.error e =>
    [GenAction.emit (GenEvent.workoutPlanError
      { planId := planId, error := some e, status := some "failed",
        step := some "Failed to save workout plan",
        message := some "An error occurred while saving the workout plan.",
        progress := some 0 })]

/-- The stages of `generateWorkoutPlan` that follow a successful document
retrieval (lines 832-1012): prompt preparation, model streaming, then
`genFinalize`.  Failures reach the outer `catch`. -/
def genAfterDocs (env : GenEnv) (planId : String) : List GenAction :=
  GenAction.emit (GenEvent.workoutPlanProgress
    { planId := planId, progress := some 30, step := some "Preparing prompt for LLM" }) ::
  match env.promptLoad with
  | Except.error _ => [genCatchAll planId "Failed to load training prompt template"]
  | Except.ok _ =>
    GenAction.emit (GenEvent.workoutPlanProgress
      { planId := planId, progress := some 40,
        step := some "Generating personalized workout plan with AI" }) ::
    GenAction.callStream ::
    match env.streamChat with
    | Except.error msg =>
      [genCatchAll planId ("Error during LLM response streaming: " ++ msg)]
    | Except.ok completeResponseText =>
      GenAction.emit (GenEvent.workoutPlanProgress
        { planId := planId, progress := some 70,
          step := some "Parsing and validating workout plan response" }) ::
      genFinalize env planId completeResponseText

/-- The error message for an entirely empty retrieval (lines 818-819). -/
def noDocsMsg : String :=
  "No relevant documents found for the provided file IDs after retrieval attempts. Cannot generate plan."

/-- `generateWorkoutPlan` (lines 764-1033) as a trace function: the ordered
collaborator calls and socket emissions of one background generation job. -/
def generateWorkoutPlan (env : GenEnv) (planId : String)
    (input : WorkoutPlanInput) : List GenAction :=
  let topK := genTopK input
  GenAction.emit (GenEvent.workoutPlanProgress
    { planId := planId, status := some "generating", progress := some 5,
      step := some "Starting workout plan generation" }) ::
  GenAction.emit (GenEvent.workoutPlanProgress
    { planId := planId, progress := some 15,
      step := some "Retrieving relevant documents" }) ::
  (getDocumentsFromFileIds env input.fileIds topK).1 ++
  (match (getDocumentsFromFileIds env input.fileIds topK).2 with
   | Except.error m => [genCatchAll planId m]
   | Except.ok documents =>
     if documents.isEmpty then
       (getDocumentsDirectlyFromSupabase env).1 ++
       match (getDocumentsDirectlyFromSupabase env).2 with
       | Except.error m => [genCatchAll planId m]
       | Except.ok documents2 =>
         if documents2.isEmpty then
           [GenAction.emit (GenEvent.workoutPlanError
             { planId := planId, error := some noDocsMsg, status := some "failed",
               step := some "Failed to retrieve documents",
               message := some noDocsMsg, progress := some 0 })]
         else genAfterDocs env planId
     else genAfterDocs env planId)

/-- The `accepted` payload the controller emits synchronously before
detaching the pipeline (workoutPlanController iteration, part_008
lines 25-31). -/
def acceptedPayload (planId : String) : GenPayload :=
  { planId := planId, status := some "accepted", progress := some 0,
    step := some "Request accepted, queueing generation...",
    message := some "Workout plan generation request received." }

/-- `createWorkoutPlan` emission trace: the accepted event, then the
detached pipeline's trace. -/
def createWorkoutPlanTrace (env : GenEnv) (planId : String)
    (input : WorkoutPlanInput) : List GenAction :=
  GenAction.emit (GenEvent.workoutPlanProgress (acceptedPayload planId)) ::
  generateWorkoutPlan env planId input

/-! ### Trace observations -/

/-- The events of a generation trace, collaborator calls dropped. -/
def genEmitted (tr : List GenAction) : List GenEvent :=
  tr.filterMap (fun a => match a with | GenAction.emit e => some e | _ => none)

/-- Is this event a completion event? -/
def isGenComplete : GenEvent → Bool
  | GenEvent.workoutPlanComplete _ => true
  | _ => false

/-- Is this event a terminal event (completion or error)? -/
def isGenTerminal : GenEvent → Bool
  | GenEvent.workoutPlanComplete _ => true
  | GenEvent.workoutPlanError _ => true
  | _ => false

/-- The payload of an event. -/
def genPayloadOf : GenEvent → GenPayload
  | GenEvent.workoutPlanProgress p => p
  | GenEvent.workoutPlanComplete p => p
  | GenEvent.workoutPlanError p => p

/-- The `progress` values carried by a list of events, in order. -/
def genProgressSeq (evs : List GenEvent) : List Int :=
  evs.filterMap (fun e => (genPayloadOf e).progress)

/-- Whether the trace contains a direct-Supabase lookup call. -/
def callsDirectQuery (tr : List GenAction) : Bool :=
  tr.any (fun a => match a with | GenAction.callDirectQuery => true | _ => false)

/-! ## Ingestion pipeline

Models `processFilesInBackground` (fileController.ts lines 299-382).  The
per-file work `processFileAndAddToVectorStore` drives external extraction,
splitting and embedding providers; its outcome per file (chunk and
character counts, or a thrown message) is supplied as input.  All events
are broadcast to the batch's upload room.
-/

/-- The fields of a `FileDocument` record this subsystem observes. -/
structure FileDocument where
  id : String
  originalName : String
  status : String := "uploaded"
  error : Option String := none
  processed : Bool := false
deriving DecidableEq, Repr

/-- Outcome of `processFileAndAddToVectorStore` for one file. -/
inductive ProcOutcome where
  | ok (chunks totalCharacters : Nat)
  | err (msg : String)
deriving DecidableEq, Repr

/-- Payload of a `processingProgress` event.  The emission before a file
carries the file's name and id; the one after carries `currentFile: null`
and no `fileId` field. -/
structure ProcProgressPayload where
  processingId : String
  currentFile : Option String
  fileId : Option String
  processedFiles : Nat
  totalFiles : Nat
  percent : ℤ
deriving DecidableEq, Repr

/-- One entry of the aggregate results array (lines 332-337). -/
structure FileResult where
  fileId : String
  filename : String
  chunks : Nat
  totalCharacters : Nat
deriving DecidableEq, Repr

/-- Payload of the `processingComplete` event (lines 367-374). -/
structure ProcCompletePayload where
  processingId : String
  processedFiles : Nat
  totalFiles : Nat
  totalChunks : Nat
  totalCharacters : Nat
  results : List FileResult
deriving DecidableEq, Repr

/-- Payload of a per-file `processingError` event (lines 357-362). -/
structure ProcErrorPayload where
  processingId : String
  fileId : String
  filename : String
  error : String
deriving DecidableEq, Repr

/-- Ingestion events. -/
inductive ProcEvent where
  | processingProgress (p : ProcProgressPayload)
  | processingComplete (p : ProcCompletePayload)
  | processingError (p : ProcErrorPayload)
deriving DecidableEq, Repr

/-- The running aggregates of a batch. -/
structure BatchState where
  processedFiles : Nat := 0
  totalChunks : Nat := 0
  totalCharacters : Nat := 0
  results : List FileResult := []
deriving DecidableEq, Repr

/-- One iteration of the file loop (lines 312-364): progress before the
file, then either success bookkeeping and a second progress emission, or
error bookkeeping and a file-scoped `processingError` — never an abort. -/
def processOneFile (processingId : String) (totalFiles : Nat) (st : BatchState)
    (f : FileDocument) (outcome : ProcOutcome) :
    List ProcEvent × FileDocument × BatchState :=
  let pre := ProcEvent.processingProgress
    { processingId := processingId, currentFile := some f.originalName,
      fileId := some f.id, processedFiles := st.processedFiles,
      totalFiles := totalFiles,
      percent := jsRound ((st.processedFiles : ℚ) / (totalFiles : ℚ) * 100) }
  match outcome with
  | ProcOutcome.ok chunks chars =>
    let f2 := { f with status := "processed", processed := true }
    let st2 : BatchState :=
      { processedFiles := st.processedFiles + 1,
        totalChunks := st.totalChunks + chunks,
        totalCharacters := st.totalCharacters + chars,
        results := st.results ++
          [{ fileId := f.id, filename := f.originalName, chunks := chunks,
             totalCharacters := chars }] }
    ([pre, ProcEvent.processingProgress
        { processingId := processingId, currentFile := none, fileId := none,
          processedFiles := st2.processedFiles, totalFiles := totalFiles,
          percent := jsRound ((st2.processedFiles : ℚ) / (totalFiles : ℚ) * 100) }],
     f2, st2)
  | ProcOutcome.err msg =>
    let f2 := { f with status := "error", error := some msg }
    ([pre, ProcEvent.processingError
        { processingId := processingId, fileId := f.id,
          filename := f.originalName, error := msg }],
     f2, st)

/-- The sequential file loop. -/
def processFilesGo (processingId : String) (totalFiles : Nat) (st : BatchState) :
    List (FileDocument × ProcOutcome) →
    List ProcEvent × List FileDocument × BatchState
  | [] => ([], [], st)
  | (f, oc) :: rest =>
    let step := processOneFile processingId totalFiles st f oc
    let rem := processFilesGo processingId totalFiles step.2.2 rest
    (step.1 ++ rem.1, step.2.1 :: rem.2.1, rem.2.2)

/-- `processFilesInBackground` (lines 299-382): run the loop over every
file, then emit `processingComplete` with the aggregates.  Returns the
emitted events and the final per-file records. -/
def processFilesInBackground (processingId : String)
    (files : List (FileDocument × ProcOutcome)) :
    List ProcEvent × List FileDocument :=
  let r := processFilesGo processingId files.length {} files
  (r.1 ++ [ProcEvent.processingComplete
      { processingId := processingId, processedFiles := r.2.2.processedFiles,
        totalFiles := files.length, totalChunks := r.2.2.totalChunks,
        totalCharacters := r.2.2.totalCharacters, results := r.2.2.results }],
   r.2.1)

/-! ## Upload request flow

Models one upload request end to end: `uploadMiddleware` (initialization,
formidable progress callbacks, parse outcome, middleware-level validation)
followed by the `uploadFile` controller (uploadMiddleware.ts lines 38-121,
fileController.ts lines 31-152).  The controller's `pendingFiles`
bookkeeping is not modelled: it feeds the later processing route and emits
nothing.
-/

/-- Outcome of `form.parse`: an error, a missing file, or a file with its
reported original name and MIME type (either may be absent). -/
inductive FormParseOutcome where
  | err (msg : String)
  | noFile
  | file (originalFilename : Option String) (mimetype : Option String)
deriving DecidableEq, Repr

/-- Fold `updateUploadProgress` over the formidable progress callbacks. -/
def runProgressCalls (m : List (String × UploadData)) (uploadId : String)
    (now : ℤ) : List (ℚ × ℚ) → List (String × UploadData) × List Emission
  | [] => (m, [])
  | (b, e) :: rest =>
    let step := updateUploadProgress m uploadId b e now
    let rem := runProgressCalls step.1 uploadId now rest
    (rem.1, step.2 ++ rem.2)

/-- The `uploadFile` controller body after the middleware called `next()`
(fileController.ts lines 31-152): parse the options field (a throw lands
in the catch, which fails the upload), re-validate the file type, then
complete the upload with the result metadata. -/
def uploadFileController (m : List (String × UploadData)) (uploadId : String)
    (origName mime : String) (optionsParse : Except String Unit)
    (fileId : String) : List (String × UploadData) × List Emission :=
  match optionsParse with
  | Except.error msg => failUpload m uploadId msg
  | Except.ok _ =>
    let fileType :=
      if mime = "application/pdf" then "application/pdf"
      else if origName.endsWith ".md" then "text/markdown"
      else mime
    if fileType ≠ "application/pdf" ∧ fileType ≠ "text/markdown" then
      failUpload m uploadId "Only PDF and Markdown files are supported"
    else
      completeUpload m uploadId (some
        { message := "File uploaded successfully and ready for processing",
          filename := origName, fileId := fileId, status := "uploaded" })

/-- One upload request: initialization, progress callbacks, then the parse
outcome routed through the middleware checks into the controller. -/
def uploadRequestFlow (m : List (String × UploadData)) (uploadId : String)
    (now : ℤ) (progressCalls : List (ℚ × ℚ)) (outcome : FormParseOutcome)
    (optionsParse : Except String Unit) (fileId : String) :
    List (String × UploadData) × List Emission :=
  let m1 := initUploadProgress m uploadId now
  let upd := runProgressCalls m1 uploadId now progressCalls
  let rest :=
    match outcome with
    | FormParseOutcome.err msg => failUpload upd.1 uploadId msg
    | FormParseOutcome.noFile => failUpload upd.1 uploadId "No file uploaded"
    | FormParseOutcome.file name mime =>
      let originalFilename := name.getD "unknown"
      let fileMimetype := mime.getD ""
      let isPdf := fileMimetype = "application/pdf"
      let isMarkdown :=
        fileMimetype = "text/markdown" ∨ originalFilename.toLower.endsWith ".md"
      if ¬ isPdf ∧ ¬ isMarkdown then
        failUpload upd.1 uploadId "Only PDF and Markdown files are allowed"
      else
        uploadFileController upd.1 uploadId originalFilename fileMimetype
          optionsParse fileId
  (rest.1, upd.2 ++ rest.2)

/-- Is an upload emission terminal (`uploadComplete` or `uploadError`)? -/
def isUpTerminal : Emission → Bool
  | ⟨_, UpEvent.uploadComplete _ _ _⟩ => true
  | ⟨_, UpEvent.uploadError _ _⟩ => true
  | _ => false

/-- Is an ingestion event the batch-level terminal event?  Per-file
`processingError` events are scoped to a single file by their `fileId` and
do not end the batch (the loop continues); the batch's terminal event is
`processingComplete`, or a batch-level `processingError` from the outer
catch, which no modelled outcome can reach. -/
def isBatchTerminal : ProcEvent → Bool
  | ProcEvent.processingComplete _ => true
  | _ => false

/-! ## Helper lemmas -/

theorem jsMapGet_set_self {α : Type} (m : List (String × α)) (k : String) (v : α) :
    jsMapGet (jsMapSet m k v) k = some v := by
  induction m with
  | nil => simp [jsMapGet, jsMapSet, List.find?]
  | cons p rest ih =>
    obtain ⟨k1, v1⟩ := p
    by_cases h : k1 = k
    · simp [jsMapSet, h, jsMapGet, List.find?]
    · simpa [jsMapSet, h, jsMapGet, List.find?] using ih

theorem genEmitted_append (xs ys : List GenAction) :
    genEmitted (xs ++ ys) = genEmitted xs ++ genEmitted ys := by
  simp [genEmitted]

/-! ## Claim C4 -/

/-- Claim C4 (confirmed): for every upload job and transport progress
callback, the stored entry and the emitted `uploadProgress` payload are one
and the same object, whose `percent` is `round(bytesReceived /
bytesExpected * 100)` when `bytesExpected > 0` and `0` when
`bytesExpected = 0`. -/
theorem updateUploadProgress_percent (m : List (String × UploadData))
    (uploadId : String) (bytesReceived bytesExpected : ℚ) (now : ℤ) :
    ∃ d : UploadData,
      jsMapGet (updateUploadProgress m uploadId bytesReceived bytesExpected now).1 uploadId
        = some d ∧
      (updateUploadProgress m uploadId bytesReceived bytesExpected now).2
        = [⟨Dest.room ("upload:" ++ uploadId), UpEvent.uploadProgress uploadId d⟩] ∧
      (0 < bytesExpected → d.percent = jsRound (bytesReceived / bytesExpected * 100)) ∧
      (bytesExpected = 0 → d.percent = 0) := by
  refine ⟨_, jsMapGet_set_self _ _ _, rfl, ?_, ?_⟩
  · intro h
    simp [updateUploadProgress, h]
  · intro h
    simp [updateUploadProgress, h]

/-- Witness for C4 at concrete inputs: 37 of 100 bytes gives percent 37,
and an unknown expected size of 0 gives percent 0. -/
theorem updateUploadProgress_percent_witness :
    (∃ d : UploadData,
      jsMapGet (updateUploadProgress [] "u1" 37 100 5).1 "u1" = some d ∧
      (updateUploadProgress [] "u1" 37 100 5).2
        = [⟨Dest.room ("upload:" ++ "u1"), UpEvent.uploadProgress "u1" d⟩] ∧
      ((0 : ℚ) < 100 → d.percent = jsRound (37 / 100 * 100)) ∧
      ((100 : ℚ) = 0 → d.percent = 0)) ∧
    (∃ d : UploadData,
      jsMapGet (updateUploadProgress [] "u2" 5 0 5).1 "u2" = some d ∧
      (updateUploadProgress [] "u2" 5 0 5).2
        = [⟨Dest.room ("upload:" ++ "u2"), UpEvent.uploadProgress "u2" d⟩] ∧
      ((0 : ℚ) < 0 → d.percent = jsRound (5 / 0 * 100)) ∧
      ((0 : ℚ) = 0 → d.percent = 0)) :=
  ⟨updateUploadProgress_percent [] "u1" 37 100 5,
   updateUploadProgress_percent [] "u2" 5 0 5⟩

/-! ## Claim C10 -/

/-- Claim C10 (confirmed): completing or failing an upload id that is not
in the progress map leaves the map unchanged and emits nothing. -/
theorem completeOrFail_unknown_id_noop (m : List (String × UploadData))
    (uploadId : String) (rd : Option ResultData) (msg : String)
    (h : jsMapGet m uploadId = none) :
    completeUpload m uploadId rd = (m, []) ∧ failUpload m uploadId msg = (m, []) := by
  constructor
  · simp [completeUpload, h]
  · simp [failUpload, h]

/-- Witness for C10: an empty map does not track `"u1"`; both calls are
no-ops there. -/
theorem completeOrFail_unknown_id_noop_witness :
    jsMapGet ([] : List (String × UploadData)) "u1" = none ∧
    completeUpload [] "u1" (some
      { message := "m", filename := "f", fileId := "i", status := "uploaded" }) = ([], []) ∧
    failUpload [] "u1" "boom" = ([], []) :=
  ⟨rfl,
   (completeOrFail_unknown_id_noop [] "u1" _ "boom" rfl).1,
   (completeOrFail_unknown_id_noop [] "u1" (some
      { message := "m", filename := "f", fileId := "i", status := "uploaded" }) "boom" rfl).2⟩

/-! ## Claim C8 -/

/-- Counterexample to claim C8 as stated: in `"\"``````\""` a fenced block
exists (with empty interior), so by the claimed strict order the
whole-text strategy must not run and, both fenced strategies failing on
the empty interior, extraction must return null.  The code instead falls
through to whole-text parsing — the capture group is falsy — and returns
the parsed string. -/
theorem extractJson_order_counterexample :
    fencedCapture ("\"``````\"").data = some [] ∧
    extractJsonClaimOrder "\"``````\"" = none ∧
    extractJsonFromText "\"``````\"" = some (Json.str "``````") ∧
    extractJsonFromText "\"``````\"" ≠ extractJsonClaimOrder "\"``````\"" := by
  have h1 : extractJsonFromText "\"``````\"" = some (Json.str "``````") := rfl
  have h2 : extractJsonClaimOrder "\"``````\"" = none := rfl
  refine ⟨rfl, h2, h1, ?_⟩
  rw [h1, h2]
  simp

/-- Claim C8 as amended (proved): extraction is the first success of the
strategies in order — fenced-interior parse then repaired-interior parse
when a fenced block with non-empty (truthy) interior exists, whole-text
parse otherwise — and every failure yields `none` (each `JSON.parse` throw
is caught inside the function) rather than an exception. -/
theorem extractJson_strategy_order (text : String) :
    extractJsonFromText text = firstSuccess (extractStrategyList text) := by
  unfold extractJsonFromText extractStrategyList
  cases h : fencedCapture text.data with
  | none => cases jsonParse (String.mk (jsTrim text.data)) <;> rfl
  | some cap =>
    by_cases hc : cap.isEmpty
    · simp only [hc]
      cases jsonParse (String.mk (jsTrim text.data)) <;> rfl
    · simp only [hc]
      cases jsonParse (String.mk (jsTrim cap)) <;>
        cases jsonParse (String.mk (cleanFencedJson cap)) <;> rfl

/-! ## Claim C2 -/

/-- Claim C2 (confirmed): when the filtered similarity search and the
direct metadata lookup both return zero documents, the generation job
emits a terminal error whose message starts with "No relevant documents
found", with status `failed`, and never emits a completion event. -/
theorem gen_no_docs_fails (env : GenEnv) (planId : String)
    (input : WorkoutPlanInput)
    (hprimary : (getDocumentsFromFileIds env input.fileIds (genTopK input)).2
      = Except.ok [])
    (hdirect : env.directQuery = Except.ok []) :
    (genEmitted (generateWorkoutPlan env planId input)).getLast?
      = some (GenEvent.workoutPlanError
        { planId := planId, error := some noDocsMsg, status := some "failed",
          step := some "Failed to retrieve documents", message := some noDocsMsg,
          progress := some 0 }) ∧
    (∀ e ∈ genEmitted (generateWorkoutPlan env planId input),
      isGenComplete e = false) ∧
    ("No relevant documents found".data).isPrefixOf noDocsMsg.data = true := by
  have h1 : (getDocumentsFromFileIds env input.fileIds (genTopK input)).1
      = [GenAction.callSimilaritySearch (genTopK input * 5)] := rfl
  have hdirect2 : (getDocumentsDirectlyFromSupabase env).2 = Except.ok [] := by
    simp [getDocumentsDirectlyFromSupabase, hdirect]
  have hdirect1 : (getDocumentsDirectlyFromSupabase env).1
      = [GenAction.callDirectQuery] := rfl
  have tr_eq : generateWorkoutPlan env planId input =
      [GenAction.emit (GenEvent.workoutPlanProgress
         { planId := planId, status := some "generating", progress := some 5,
           step := some "Starting workout plan generation" }),
       GenAction.emit (GenEvent.workoutPlanProgress
         { planId := planId, progress := some 15,
           step := some "Retrieving relevant documents" }),
       GenAction.callSimilaritySearch (genTopK input * 5),
       GenAction.callDirectQuery,
       GenAction.emit (GenEvent.workoutPlanError
         { planId := planId, error := some noDocsMsg, status := some "failed",
           step := some "Failed to retrieve documents", message := some noDocsMsg,
           progress := some 0 })] := by
    simp only [generateWorkoutPlan]
    rw [hprimary, h1, hdirect1, hdirect2]
    simp
  rw [tr_eq]
  refine ⟨by rfl, ?_, by decide⟩
  intro e he
  simp [genEmitted] at he
  rcases he with rfl | rfl | rfl <;> rfl

/-- Concrete environment whose retrievals both come back empty. -/
def envNoDocs : GenEnv :=
  { similaritySearch := fun _ => Except.ok [],
    directQuery := Except.ok [],
    promptLoad := Except.ok (),
    streamChat := Except.ok "",
    validatePlan := fun _ => Except.ok true,
    savePlan := Except.ok () }

/-- Witness for C2: the empty-retrieval environment satisfies both
hypotheses, and the job fails terminally without a completion event. -/
theorem gen_no_docs_fails_witness :
    (getDocumentsFromFileIds envNoDocs ["f1"] 8).2 = Except.ok [] ∧
    envNoDocs.directQuery = Except.ok [] ∧
    ((genEmitted (generateWorkoutPlan envNoDocs "plan-1"
        { query := "q", fileIds := ["f1"] })).getLast?
      = some (GenEvent.workoutPlanError
        { planId := "plan-1", error := some noDocsMsg, status := some "failed",
          step := some "Failed to retrieve documents", message := some noDocsMsg,
          progress := some 0 }) ∧
    (∀ e ∈ genEmitted (generateWorkoutPlan envNoDocs "plan-1"
        { query := "q", fileIds := ["f1"] }), isGenComplete e = false) ∧
    ("No relevant documents found".data).isPrefixOf noDocsMsg.data = true) :=
  ⟨rfl, rfl, gen_no_docs_fails envNoDocs "plan-1" { query := "q", fileIds := ["f1"] } rfl rfl⟩

/-! ## Claim C7 -/

theorem callsDirectQuery_cons (a : GenAction) (tr : List GenAction) :
    callsDirectQuery (a :: tr)
      = ((match a with | GenAction.callDirectQuery => true | _ => false)
         || callsDirectQuery tr) := by
  simp [callsDirectQuery]

theorem callsDirectQuery_append (xs ys : List GenAction) :
    callsDirectQuery (xs ++ ys) = (callsDirectQuery xs || callsDirectQuery ys) := by
  simp [callsDirectQuery, List.any_append]

theorem callsDirectQuery_genFinalize (env : GenEnv) (planId txt : String) :
    callsDirectQuery (genFinalize env planId txt) = false := by
  cases h : env.savePlan <;> simp [genFinalize, h, callsDirectQuery]

theorem callsDirectQuery_genAfterDocs (env : GenEnv) (planId : String) :
    callsDirectQuery (genAfterDocs env planId) = false := by
  unfold genAfterDocs
  cases hp : env.promptLoad with
  | error e => simp [callsDirectQuery, genCatchAll]
  | ok u =>
    cases hs : env.streamChat with
    | error msg => simp [callsDirectQuery, genCatchAll]
    | ok txt =>
      rw [callsDirectQuery_cons, callsDirectQuery_cons, callsDirectQuery_cons,
        callsDirectQuery_cons, callsDirectQuery_genFinalize]
      rfl

/-- Claim C7 (confirmed): primary retrieval similarity-searches five times
the requested top-K, keeps only documents whose metadata `fileId` is among
the caller-supplied ids, truncates to top-K; and the generation pipeline
invokes the direct Supabase lookup exactly when the primary strategy
returned zero documents. -/
theorem retrieval_overfetch_filter_fallback :
    (∀ (env : GenEnv) (fileIds : List String) (topK : Nat) (docs : List Doc),
      env.similaritySearch (topK * 5) = Except.ok docs →
      (getDocumentsFromFileIds env fileIds topK).1
        = [GenAction.callSimilaritySearch (topK * 5)] ∧
      (getDocumentsFromFileIds env fileIds topK).2
        = Except.ok ((docs.filter (fileIdMatches fileIds)).take topK) ∧
      ∀ d ∈ (docs.filter (fileIdMatches fileIds)).take topK,
        ∃ fid, d.fileId = some fid ∧ fid ∈ fileIds) ∧
    (∀ (env : GenEnv) (planId : String) (input : WorkoutPlanInput) (ds : List Doc),
      (getDocumentsFromFileIds env input.fileIds (genTopK input)).2 = Except.ok ds →
      (callsDirectQuery (generateWorkoutPlan env planId input) = true ↔ ds = [])) := by
  constructor
  · intro env fileIds topK docs h
    refine ⟨rfl, by simp [getDocumentsFromFileIds, h], ?_⟩
    intro d hd
    have hd2 : d ∈ docs.filter (fileIdMatches fileIds) := List.mem_of_mem_take hd
    have hm : fileIdMatches fileIds d = true := (List.mem_filter.mp hd2).2
    cases hfid : d.fileId with
    | none => simp [fileIdMatches, hfid] at hm
    | some fid =>
      refine ⟨fid, rfl, ?_⟩
      simp [fileIdMatches, hfid] at hm
      exact hm.2
  · intro env planId input ds h
    cases ds with
    | nil =>
      have htrue : callsDirectQuery (generateWorkoutPlan env planId input) = true := by
        simp only [generateWorkoutPlan]
        rw [h]
        simp [callsDirectQuery, getDocumentsFromFileIds, getDocumentsDirectlyFromSupabase]
      simp [htrue]
    | cons d rest =>
      have hfalse : callsDirectQuery (generateWorkoutPlan env planId input) = false := by
        simp only [generateWorkoutPlan]
        rw [h]
        show callsDirectQuery (_ :: _ ::
          (getDocumentsFromFileIds env input.fileIds (genTopK input)).1 ++
          genAfterDocs env planId) = false
        rw [callsDirectQuery_append, callsDirectQuery_cons, callsDirectQuery_cons,
          callsDirectQuery_genAfterDocs]
        rfl
      simp [hfalse]

/-- Environment for the C7 witness: the search returns one matching and
one non-matching document. -/
def envRetrieval : GenEnv :=
  { similaritySearch := fun _ =>
      Except.ok [{ pageContent := "a", fileId := some "f1" },
                 { pageContent := "b", fileId := some "other" }],
    directQuery := Except.ok [],
    promptLoad := Except.ok (),
    streamChat := Except.ok "",
    validatePlan := fun _ => Except.ok true,
    savePlan := Except.ok () }

/-- Witness for C7: at `topK = 1` the helper fetches 5 documents' worth,
keeps only the one matching `"f1"`, and since the primary result is
non-empty the trace contains no direct-lookup call. -/
theorem retrieval_overfetch_filter_fallback_witness :
    ((getDocumentsFromFileIds envRetrieval ["f1"] 1).1
      = [GenAction.callSimilaritySearch 5] ∧
     (getDocumentsFromFileIds envRetrieval ["f1"] 1).2
      = Except.ok [{ pageContent := "a", fileId := some "f1" }]) ∧
    (callsDirectQuery (generateWorkoutPlan envRetrieval "plan-1"
       { query := "q", fileIds := ["f1"], optionsTopK := some 1 }) = true
     ↔ ([{ pageContent := "a", fileId := some "f1" }] : List Doc) = []) := by
  constructor
  · exact ⟨(retrieval_overfetch_filter_fallback.1 envRetrieval ["f1"] 1 _ rfl).1,
      by rw [(retrieval_overfetch_filter_fallback.1 envRetrieval ["f1"] 1 _ rfl).2.1]; rfl⟩
  · exact retrieval_overfetch_filter_fallback.2 envRetrieval "plan-1"
      { query := "q", fileIds := ["f1"], optionsTopK := some 1 } _ rfl

/-! ## Claim C5 -/

/-- Claim C5 (confirmed): a connection joining a job's room after the job
reached a terminal registry state immediately receives the current
snapshot and the matching terminal event, every emission targeted at the
joining socket alone (`Dest.sock`), and nothing else — in particular no
historical progress event: the registry stores only the current snapshot,
and the single progress-typed emission carries exactly it. -/
theorem join_replays_terminal_only :
    (∀ (m : List (String × UploadData)) (sid : Nat) (uploadId : String) (d : UploadData),
      getUploadProgress m uploadId = some d →
      (d.completed = true →
        joinUploadRoom m sid uploadId =
          [⟨Dest.sock sid, UpEvent.uploadProgress uploadId d⟩,
           ⟨Dest.sock sid, UpEvent.uploadComplete uploadId d d.resultData⟩]) ∧
      (d.completed = false → optStrTruthy d.error = true →
        joinUploadRoom m sid uploadId =
          [⟨Dest.sock sid, UpEvent.uploadProgress uploadId d⟩,
           ⟨Dest.sock sid, UpEvent.uploadError uploadId (d.error.getD "")⟩])) ∧
    (∀ (mp : List (String × WorkoutPlanGenerationStatus)) (sid : Nat) (planId : String)
       (st : WorkoutPlanGenerationStatus),
      getWorkoutPlanStatus mp planId = some st →
      (st.status = "completed" →
        joinWorkoutPlanRoom mp sid planId =
          [⟨Dest.sock sid, WpEvent.workoutPlanProgress st⟩,
           ⟨Dest.sock sid, WpEvent.workoutPlanComplete st⟩]) ∧
      (st.status = "failed" →
        joinWorkoutPlanRoom mp sid planId =
          [⟨Dest.sock sid, WpEvent.workoutPlanProgress st⟩,
           ⟨Dest.sock sid, WpEvent.workoutPlanError st⟩])) := by
  constructor
  · intro m sid uploadId d h
    constructor
    · intro hc
      unfold joinUploadRoom
      rw [h]
      simp [hc]
    · intro hc he
      unfold joinUploadRoom
      rw [h]
      simp [hc, he]
  · intro mp sid planId st h
    constructor
    · intro hs
      unfold joinWorkoutPlanRoom
      rw [h]
      simp [hs]
    · intro hs
      unfold joinWorkoutPlanRoom
      rw [h]
      simp [hs]

/-- A completed upload snapshot, as `completeUpload` leaves it. -/
def uploadDoneData : UploadData :=
  { bytesReceived := 2048, bytesExpected := 2048, percent := 100, completed := true,
    createdAt := 1,
    resultData := some
      { message := "File uploaded successfully and ready for processing",
        filename := "notes.md", fileId := "files-1.md", status := "uploaded" } }

/-- A failed upload snapshot, as `failUpload` leaves it. -/
def uploadFailData : UploadData :=
  { bytesReceived := 10, bytesExpected := 2048, percent := 0, completed := false,
    error := some "No file uploaded", createdAt := 1 }

/-- A completed generation snapshot. -/
def planDoneStatus : WorkoutPlanGenerationStatus :=
  { planId := "p1", status := "completed", progress := 100, step := "done",
    result := some generateMinimalValidPlan }

/-- A failed generation snapshot. -/
def planFailStatus : WorkoutPlanGenerationStatus :=
  { planId := "p2", status := "failed", progress := 0, step := "failed",
    error := some "boom" }

/-- Witness for C5: late joiners at terminal snapshots receive exactly the
snapshot and the terminal event, addressed to their own socket. -/
theorem join_replays_terminal_only_witness :
    joinUploadRoom [("u1", uploadDoneData)] 3 "u1" =
      [⟨Dest.sock 3, UpEvent.uploadProgress "u1" uploadDoneData⟩,
       ⟨Dest.sock 3, UpEvent.uploadComplete "u1" uploadDoneData uploadDoneData.resultData⟩] ∧
    joinUploadRoom [("u2", uploadFailData)] 4 "u2" =
      [⟨Dest.sock 4, UpEvent.uploadProgress "u2" uploadFailData⟩,
       ⟨Dest.sock 4, UpEvent.uploadError "u2" (uploadFailData.error.getD "")⟩] ∧
    joinWorkoutPlanRoom [("p1", planDoneStatus)] 5 "p1" =
      [⟨Dest.sock 5, WpEvent.workoutPlanProgress planDoneStatus⟩,
       ⟨Dest.sock 5, WpEvent.workoutPlanComplete planDoneStatus⟩] ∧
    joinWorkoutPlanRoom [("p2", planFailStatus)] 6 "p2" =
      [⟨Dest.sock 6, WpEvent.workoutPlanProgress planFailStatus⟩,
       ⟨Dest.sock 6, WpEvent.workoutPlanError planFailStatus⟩] :=
  ⟨(join_replays_terminal_only.1 [("u1", uploadDoneData)] 3 "u1" uploadDoneData rfl).1 rfl,
   (join_replays_terminal_only.1 [("u2", uploadFailData)] 4 "u2" uploadFailData rfl).2 rfl rfl,
   (join_replays_terminal_only.2 [("p1", planDoneStatus)] 5 "p1" planDoneStatus rfl).1 rfl,
   (join_replays_terminal_only.2 [("p2", planFailStatus)] 6 "p2" planFailStatus rfl).2 rfl⟩

/-! ## Claim C6 -/

/-- Did this file's processing succeed? -/
def procOutcomeOk : FileDocument × ProcOutcome → Bool
  | (_, ProcOutcome.ok _ _) => true
  | (_, ProcOutcome.err _) => false

/-- The record update the loop performs on one file. -/
def procRecAfter : FileDocument × ProcOutcome → FileDocument
  | (f, ProcOutcome.ok _ _) => { f with status := "processed", processed := true }
  | (f, ProcOutcome.err m) => { f with status := "error", error := some m }

/-- The aggregate results array entries: one per successful file, in batch
order; failed files contribute none. -/
def procResultsOf (files : List (FileDocument × ProcOutcome)) : List FileResult :=
  files.filterMap (fun fo =>
    match fo with
    | (f, ProcOutcome.ok c ch) =>
      some { fileId := f.id, filename := f.originalName, chunks := c, totalCharacters := ch }
    | (_, ProcOutcome.err _) => none)

/-- Number of files processed successfully. -/
def countOkFiles (files : List (FileDocument × ProcOutcome)) : Nat :=
  files.countP procOutcomeOk

/-- Number of files that failed. -/
def countErrFiles (files : List (FileDocument × ProcOutcome)) : Nat :=
  files.countP (fun fo => ! procOutcomeOk fo)

/-- Total chunks over the successful files. -/
def sumChunks (files : List (FileDocument × ProcOutcome)) : Nat :=
  (files.map (fun fo => match fo.2 with | ProcOutcome.ok c _ => c | ProcOutcome.err _ => 0)).sum

/-- Total characters over the successful files. -/
def sumChars (files : List (FileDocument × ProcOutcome)) : Nat :=
  (files.map (fun fo => match fo.2 with | ProcOutcome.ok _ ch => ch | ProcOutcome.err _ => 0)).sum

theorem isBatchTerminal_progress (p : ProcProgressPayload) :
    isBatchTerminal (ProcEvent.processingProgress p) = false := rfl

theorem isBatchTerminal_error (p : ProcErrorPayload) :
    isBatchTerminal (ProcEvent.processingError p) = false := rfl

theorem processFilesGo_spec (pid : String) (tf : Nat) (st : BatchState)
    (fs : List (FileDocument × ProcOutcome)) :
    (processFilesGo pid tf st fs).2.2.processedFiles = st.processedFiles + countOkFiles fs ∧
    (processFilesGo pid tf st fs).2.2.totalChunks = st.totalChunks + sumChunks fs ∧
    (processFilesGo pid tf st fs).2.2.totalCharacters = st.totalCharacters + sumChars fs ∧
    (processFilesGo pid tf st fs).2.2.results = st.results ++ procResultsOf fs ∧
    (processFilesGo pid tf st fs).2.1 = fs.map procRecAfter ∧
    (∀ f msg, (f, ProcOutcome.err msg) ∈ fs →
      ProcEvent.processingError
        { processingId := pid, fileId := f.id, filename := f.originalName, error := msg }
        ∈ (processFilesGo pid tf st fs).1) ∧
    (processFilesGo pid tf st fs).1.countP (fun e => isBatchTerminal e) = 0 := by
  induction fs generalizing st with
  | nil =>
    simp [processFilesGo, countOkFiles, countErrFiles, procResultsOf, sumChunks, sumChars]
  | cons fo rest ih =>
    obtain ⟨f, oc⟩ := fo
    cases oc with
    | ok c ch =>
      have h := ih { processedFiles := st.processedFiles + 1,
                     totalChunks := st.totalChunks + c,
                     totalCharacters := st.totalCharacters + ch,
                     results := st.results ++
                       [{ fileId := f.id, filename := f.originalName, chunks := c,
                          totalCharacters := ch }] }
      obtain ⟨h1, h2, h3, h4, h5, h6, h7⟩ := h
      refine ⟨?_, ?_, ?_, ?_, ?_, ?_, ?_⟩
      · simp [processFilesGo, processOneFile, h1, countOkFiles, procOutcomeOk, List.countP_cons]
        omega
      · simp [processFilesGo, processOneFile, h2, sumChunks]
        omega
      · simp [processFilesGo, processOneFile, h3, sumChars]
        omega
      · simp [processFilesGo, processOneFile, h4, procResultsOf]
      · simp [processFilesGo, processOneFile, h5, procRecAfter]
      · intro g msg hmem
        rcases List.mem_cons.mp hmem with heq | hmem2
        · exact absurd heq (by simp)
        · exact List.mem_append_right _ (h6 g msg hmem2)
      · simp [processFilesGo, processOneFile, List.countP_cons, isBatchTerminal_progress,
          isBatchTerminal_error, h7]
    | err msg0 =>
      obtain ⟨h1, h2, h3, h4, h5, h6, h7⟩ := ih st
      refine ⟨?_, ?_, ?_, ?_, ?_, ?_, ?_⟩
      · simp [processFilesGo, processOneFile, h1, countOkFiles, procOutcomeOk, List.countP_cons]
      · simp [processFilesGo, processOneFile, h2, sumChunks]
      · simp [processFilesGo, processOneFile, h3, sumChars]
      · simp [processFilesGo, processOneFile, h4, procResultsOf]
      · simp [processFilesGo, processOneFile, h5, procRecAfter]
      · intro g msg hmem
        rcases List.mem_cons.mp hmem with heq | hmem2
        · have hg2 : g = f := congrArg Prod.fst heq
          have hm2 : msg = msg0 := ProcOutcome.err.inj (congrArg Prod.snd heq)
          subst hg2; subst hm2
          exact List.mem_append_left _ (List.mem_cons_of_mem _ (List.mem_cons_self _ _))
        · exact List.mem_append_right _ (h6 g msg hmem2)
      · simp [processFilesGo, processOneFile, List.countP_cons, isBatchTerminal_progress,
          isBatchTerminal_error, h7]

/-- A one-file batch whose only file fails. -/
def batchOneErr : List (FileDocument × ProcOutcome) :=
  [({ id := "f1", originalName := "a.pdf" }, ProcOutcome.err "boom")]

theorem countOk_add_countErr (files : List (FileDocument × ProcOutcome)) :
    countOkFiles files + countErrFiles files = files.length := by
  induction files with
  | nil => rfl
  | cons fo rest ih =>
    simp only [countOkFiles, countErrFiles, List.countP_cons] at ih ⊢
    cases procOutcomeOk fo <;> simp <;> omega

theorem isBatchTerminal_complete (p : ProcCompletePayload) :
    isBatchTerminal (ProcEvent.processingComplete p) = true := rfl

/-- Counterexample to claim C6 as stated: in a batch whose single file
fails, the `processingComplete` payload reports `totalFiles = 1` but an
empty results array — the failed file IS omitted from the results array,
visible only through its `processingError` event and its record's
`error` status. -/
theorem proc_results_omit_failed_counterexample :
    (processFilesInBackground "proc-1" batchOneErr).1.getLast?
      = some (ProcEvent.processingComplete
        { processingId := "proc-1", processedFiles := 0, totalFiles := 1,
          totalChunks := 0, totalCharacters := 0, results := [] }) ∧
    ProcEvent.processingError
      { processingId := "proc-1", fileId := "f1", filename := "a.pdf", error := "boom" }
      ∈ (processFilesInBackground "proc-1" batchOneErr).1 ∧
    (∀ pay, ProcEvent.processingComplete pay
        ∈ (processFilesInBackground "proc-1" batchOneErr).1 →
      pay.results = [] ∧ pay.totalFiles = 1) := by
  obtain ⟨h1, h2, h3, h4, h5, h6, h7⟩ :=
    processFilesGo_spec "proc-1" batchOneErr.length ({} : BatchState) batchOneErr
  refine ⟨?_, ?_, ?_⟩
  · simp only [processFilesInBackground]
    rw [List.getLast?_append_cons]
    simp only [List.getLast?_singleton, Option.some.injEq]
    rw [show (processFilesGo "proc-1" batchOneErr.length {} batchOneErr).2.2.processedFiles
        = 0 from by rw [h1]; rfl,
      show (processFilesGo "proc-1" batchOneErr.length {} batchOneErr).2.2.totalChunks
        = 0 from by rw [h2]; rfl,
      show (processFilesGo "proc-1" batchOneErr.length {} batchOneErr).2.2.totalCharacters
        = 0 from by rw [h3]; rfl,
      show (processFilesGo "proc-1" batchOneErr.length {} batchOneErr).2.2.results
        = [] from by rw [h4]; rfl]
    rfl
  · exact List.mem_append_left _
      (h6 { id := "f1", originalName := "a.pdf" } "boom" (by simp [batchOneErr]))
  · intro pay hp
    simp only [processFilesInBackground] at hp
    rcases List.mem_append.mp hp with hin | hin
    · exfalso
      have hx := List.countP_eq_zero.mp h7 _ hin
      rw [isBatchTerminal_complete] at hx
      exact hx rfl
    · have heq := List.mem_singleton.mp hin
      obtain rfl := (ProcEvent.processingComplete.inj heq.symm)
      constructor
      · rw [h4]; rfl
      · rfl

/-- Claim C6 as amended (proved): a failing file is recorded with status
`error` and the captured message, gets a file-scoped `processingError`,
and the loop still visits and records every other file; at batch end
exactly one `processingComplete` is emitted, carrying the aggregate
totals and a results array listing exactly the successfully processed
files in order (failed files are omitted from it), with
`processedFiles + errorFiles = totalFiles`. -/
theorem proc_batch_accounting (pid : String)
    (files : List (FileDocument × ProcOutcome)) :
    (processFilesInBackground pid files).2 = files.map procRecAfter ∧
    (∀ f msg, (f, ProcOutcome.err msg) ∈ files →
      procRecAfter (f, ProcOutcome.err msg)
        = { f with status := "error", error := some msg } ∧
      ProcEvent.processingError
        { processingId := pid, fileId := f.id, filename := f.originalName, error := msg }
        ∈ (processFilesInBackground pid files).1) ∧
    (processFilesInBackground pid files).1.getLast?
      = some (ProcEvent.processingComplete
        { processingId := pid, processedFiles := countOkFiles files,
          totalFiles := files.length, totalChunks := sumChunks files,
          totalCharacters := sumChars files, results := procResultsOf files }) ∧
    countOkFiles files + countErrFiles files = files.length ∧
    (processFilesInBackground pid files).1.countP isBatchTerminal = 1 := by
  obtain ⟨h1, h2, h3, h4, h5, h6, h7⟩ :=
    processFilesGo_spec pid files.length ({} : BatchState) files
  refine ⟨?_, ?_, ?_, ?_, ?_⟩
  · simpa [processFilesInBackground] using h5
  · intro f msg hmem
    exact ⟨rfl, List.mem_append_left _ (h6 f msg hmem)⟩
  · simp only [processFilesInBackground]
    rw [List.getLast?_append_cons]
    simp only [List.getLast?_singleton, Option.some.injEq]
    rw [h1, h2, h3, h4]
    simp
  · exact countOk_add_countErr files
  · simp only [processFilesInBackground]
    rw [List.countP_append]
    simp [h7, List.countP_cons, isBatchTerminal_complete]

/-- A two-file batch: the first succeeds, the second fails. -/
def batchMixed : List (FileDocument × ProcOutcome) :=
  [({ id := "f1", originalName := "a.pdf" }, ProcOutcome.ok 3 120),
   ({ id := "f2", originalName := "b.md" }, ProcOutcome.err "parse failed")]

/-- Witness for the amended C6 on a mixed batch: the failed file is
recorded and error-notified, the complete event lists only the successful
file, and 1 processed + 1 errored = 2 total. -/
theorem proc_batch_accounting_witness :
    (processFilesInBackground "proc-2" batchMixed).2
      = batchMixed.map procRecAfter ∧
    procRecAfter ({ id := "f2", originalName := "b.md" }, ProcOutcome.err "parse failed")
      = { id := "f2", originalName := "b.md", status := "error",
          error := some "parse failed" } ∧
    ProcEvent.processingError
      { processingId := "proc-2", fileId := "f2", filename := "b.md",
        error := "parse failed" } ∈ (processFilesInBackground "proc-2" batchMixed).1 ∧
    (processFilesInBackground "proc-2" batchMixed).1.getLast?
      = some (ProcEvent.processingComplete
        { processingId := "proc-2", processedFiles := countOkFiles batchMixed,
          totalFiles := batchMixed.length, totalChunks := sumChunks batchMixed,
          totalCharacters := sumChars batchMixed, results := procResultsOf batchMixed }) ∧
    countOkFiles batchMixed + countErrFiles batchMixed = batchMixed.length :=
  ⟨(proc_batch_accounting "proc-2" batchMixed).1,
   ((proc_batch_accounting "proc-2" batchMixed).2.1 { id := "f2", originalName := "b.md" }
      "parse failed" (by simp [batchMixed])).1,
   ((proc_batch_accounting "proc-2" batchMixed).2.1 { id := "f2", originalName := "b.md" }
      "parse failed" (by simp [batchMixed])).2,
   (proc_batch_accounting "proc-2" batchMixed).2.2.1,
   (proc_batch_accounting "proc-2" batchMixed).2.2.2.1⟩

/-! ## Claim C3 -/

theorem genTerminal_finalize (env : GenEnv) (planId txt : String) :
    (genEmitted (genFinalize env planId txt)).countP isGenTerminal = 1 := by
  cases h : env.savePlan <;>
    simp [genFinalize, h, genEmitted, isGenTerminal, List.countP_cons]

theorem genTerminal_afterDocs (env : GenEnv) (planId : String) :
    (genEmitted (genAfterDocs env planId)).countP isGenTerminal = 1 := by
  unfold genAfterDocs
  cases hp : env.promptLoad with
  | error e =>
    simp [genEmitted, genCatchAll, isGenTerminal, List.countP_cons]
  | ok u =>
    cases hs : env.streamChat with
    | error msg =>
      simp [genEmitted, genCatchAll, isGenTerminal, List.countP_cons]
    | ok txt =>
      have h1 := genTerminal_finalize env planId txt
      simp only [genEmitted] at h1 ⊢
      simp [List.countP_cons, isGenTerminal, h1]

theorem runProgressCalls_preserves (uploadId : String) (now : ℤ)
    (calls : List (ℚ × ℚ)) :
    ∀ m : List (String × UploadData), (jsMapGet m uploadId).isSome = true →
      (jsMapGet (runProgressCalls m uploadId now calls).1 uploadId).isSome = true := by
  induction calls with
  | nil => intro m h; exact h
  | cons c rest ih =>
    intro m h
    obtain ⟨b, e⟩ := c
    apply ih
    simp [updateUploadProgress, jsMapGet_set_self]

theorem runProgressCalls_no_terminal (uploadId : String) (now : ℤ)
    (calls : List (ℚ × ℚ)) :
    ∀ m : List (String × UploadData),
      (runProgressCalls m uploadId now calls).2.countP isUpTerminal = 0 := by
  induction calls with
  | nil => intro m; rfl
  | cons c rest ih =>
    intro m
    obtain ⟨b, e⟩ := c
    simp [runProgressCalls, updateUploadProgress, List.countP_cons, isUpTerminal,
      List.countP_append, ih]

theorem failUpload_one_terminal (m : List (String × UploadData))
    (uploadId msg : String) (h : (jsMapGet m uploadId).isSome = true) :
    (failUpload m uploadId msg).2.countP isUpTerminal = 1 := by
  cases hm : jsMapGet m uploadId with
  | none => rw [hm] at h; exact Bool.noConfusion h
  | some d => simp [failUpload, hm, isUpTerminal, List.countP_cons]

theorem completeUpload_one_terminal (m : List (String × UploadData))
    (uploadId : String) (rd : Option ResultData)
    (h : (jsMapGet m uploadId).isSome = true) :
    (completeUpload m uploadId rd).2.countP isUpTerminal = 1 := by
  cases hm : jsMapGet m uploadId with
  | none => rw [hm] at h; exact Bool.noConfusion h
  | some d => simp [completeUpload, hm, isUpTerminal, List.countP_cons]

theorem uploadFileController_one_terminal (m : List (String × UploadData))
    (uploadId origName mime : String) (optionsParse : Except String Unit)
    (fileId : String) (h : (jsMapGet m uploadId).isSome = true) :
    (uploadFileController m uploadId origName mime optionsParse fileId).2.countP
      isUpTerminal = 1 := by
  cases optionsParse with
  | error msg => exact failUpload_one_terminal _ _ _ h
  | ok u =>
    simp only [uploadFileController]
    split_ifs <;>
      first
      | exact failUpload_one_terminal _ _ _ h
      | exact completeUpload_one_terminal _ _ _ h

/-- Claim C3 (confirmed, with the batch-level reading for ingestion):
every generation job, ingestion batch and upload request emits exactly one
terminal event over its lifetime, whatever the collaborator outcomes —
every failure the pipeline boundary catches becomes that single terminal
error event, and the trace functions are total, so no modelled outcome
escapes as an unhandled exception.  For an ingestion batch the per-file
`processingError` events are scoped to single files by their `fileId` and
do not terminate the batch (claim C6 relies on them coexisting with
`processingComplete`); the batch-level terminal events are counted by
`isBatchTerminal`. -/
theorem exactly_one_terminal_event :
    (∀ (env : GenEnv) (planId : String) (input : WorkoutPlanInput),
      (genEmitted (generateWorkoutPlan env planId input)).countP isGenTerminal = 1) ∧
    (∀ (pid : String) (files : List (FileDocument × ProcOutcome)),
      (processFilesInBackground pid files).1.countP isBatchTerminal = 1) ∧
    (∀ (m : List (String × UploadData)) (uploadId : String) (now : ℤ)
       (progressCalls : List (ℚ × ℚ)) (outcome : FormParseOutcome)
       (optionsParse : Except String Unit) (fileId : String),
      (uploadRequestFlow m uploadId now progressCalls outcome optionsParse fileId).2.countP
        isUpTerminal = 1) := by
  refine ⟨?_, ?_, ?_⟩
  · intro env planId input
    simp only [generateWorkoutPlan]
    cases hp : (getDocumentsFromFileIds env input.fileIds (genTopK input)).2 with
    | error msg =>
      simp [genEmitted, genCatchAll, isGenTerminal, getDocumentsFromFileIds,
        List.countP_cons]
    | ok docs =>
      cases docs with
      | cons d rest =>
        have h1 := genTerminal_afterDocs env planId
        simp only [genEmitted] at h1
        simp [genEmitted, getDocumentsFromFileIds, List.countP_cons, isGenTerminal, h1]
      | nil =>
        cases hd : (getDocumentsDirectlyFromSupabase env).2 with
        | error m2 =>
          simp [genEmitted, genCatchAll, isGenTerminal, getDocumentsFromFileIds,
            getDocumentsDirectlyFromSupabase, List.countP_cons]
        | ok ds2 =>
          cases ds2 with
          | nil =>
            simp [genEmitted, isGenTerminal, getDocumentsFromFileIds,
              getDocumentsDirectlyFromSupabase, List.countP_cons]
          | cons e2 r2 =>
            have h1 := genTerminal_afterDocs env planId
            simp only [genEmitted] at h1
            simp [genEmitted, getDocumentsFromFileIds, getDocumentsDirectlyFromSupabase,
              List.countP_cons, isGenTerminal, h1]
  · intro pid files
    obtain ⟨h1, h2, h3, h4, h5, h6, h7⟩ :=
      processFilesGo_spec pid files.length ({} : BatchState) files
    simp only [processFilesInBackground]
    rw [List.countP_append]
    simp [h7, List.countP_cons, isBatchTerminal_complete]
  · intro m uploadId now progressCalls outcome optionsParse fileId
    have hinit : (jsMapGet (initUploadProgress m uploadId now) uploadId).isSome = true := by
      simp [initUploadProgress, jsMapGet_set_self]
    have hupd := runProgressCalls_preserves uploadId now progressCalls _ hinit
    have hzero := runProgressCalls_no_terminal uploadId now progressCalls
      (initUploadProgress m uploadId now)
    simp only [uploadRequestFlow]
    rw [List.countP_append, hzero, Nat.zero_add]
    split
    · exact failUpload_one_terminal _ _ _ hupd
    · exact failUpload_one_terminal _ _ _ hupd
    · split
      · exact failUpload_one_terminal _ _ _ hupd
      · exact uploadFileController_one_terminal _ _ _ _ _ _ hupd

/-! ## Claim C1 -/

/-- The progress payload emitted at the start of the background task. -/
def genP5 (planId : String) : GenPayload :=
  { planId := planId, status := some "generating", progress := some 5,
    step := some "Starting workout plan generation" }

/-- The retrieval-stage progress payload. -/
def genP15 (planId : String) : GenPayload :=
  { planId := planId, progress := some 15, step := some "Retrieving relevant documents" }

/-- The prompt-stage progress payload. -/
def genP30 (planId : String) : GenPayload :=
  { planId := planId, progress := some 30, step := some "Preparing prompt for LLM" }

/-- The model-stage progress payload. -/
def genP40 (planId : String) : GenPayload :=
  { planId := planId, progress := some 40,
    step := some "Generating personalized workout plan with AI" }

/-- The parse/validate-stage progress payload. -/
def genP70 (planId : String) : GenPayload :=
  { planId := planId, progress := some 70,
    step := some "Parsing and validating workout plan response" }

/-- The post-retrieval stages under a loaded prompt and a finished stream. -/
theorem genAfterDocs_ok (env : GenEnv) (planId txt : String)
    (hprompt : env.promptLoad = Except.ok ())
    (htxt : env.streamChat = Except.ok txt) :
    genAfterDocs env planId =
      [GenAction.emit (GenEvent.workoutPlanProgress (genP30 planId)),
       GenAction.emit (GenEvent.workoutPlanProgress (genP40 planId)),
       GenAction.callStream,
       GenAction.emit (GenEvent.workoutPlanProgress (genP70 planId))] ++
      genFinalize env planId txt := by
  unfold genAfterDocs
  rw [hprompt, htxt]
  rfl

/-- When the primary retrieval succeeds non-empty, the trace is the two
leading progress events, the search call, then the post-retrieval stages. -/
theorem generateWorkoutPlan_primary_nonempty (env : GenEnv) (planId : String)
    (input : WorkoutPlanInput) (d : Doc) (rest : List Doc)
    (hprimary : (getDocumentsFromFileIds env input.fileIds (genTopK input)).2
      = Except.ok (d :: rest)) :
    generateWorkoutPlan env planId input =
      [GenAction.emit (GenEvent.workoutPlanProgress (genP5 planId)),
       GenAction.emit (GenEvent.workoutPlanProgress (genP15 planId)),
       GenAction.callSimilaritySearch (genTopK input * 5)] ++
      genAfterDocs env planId := by
  simp only [generateWorkoutPlan]
  rw [hprimary]
  rfl

/-- When the primary retrieval is empty but the direct lookup succeeds
non-empty, the trace additionally records the direct-lookup call. -/
theorem generateWorkoutPlan_fallback_nonempty (env : GenEnv) (planId : String)
    (input : WorkoutPlanInput) (d : Doc) (rest : List Doc)
    (hprimary : (getDocumentsFromFileIds env input.fileIds (genTopK input)).2
      = Except.ok [])
    (hdirect : env.directQuery = Except.ok (d :: rest)) :
    generateWorkoutPlan env planId input =
      [GenAction.emit (GenEvent.workoutPlanProgress (genP5 planId)),
       GenAction.emit (GenEvent.workoutPlanProgress (genP15 planId)),
       GenAction.callSimilaritySearch (genTopK input * 5),
       GenAction.callDirectQuery] ++
      genAfterDocs env planId := by
  have hdd : (getDocumentsDirectlyFromSupabase env).2 = Except.ok (d :: rest) := by
    simp [getDocumentsDirectlyFromSupabase, hdirect]
  simp only [generateWorkoutPlan]
  rw [hprimary]
  show (_ :: _ :: (getDocumentsFromFileIds env input.fileIds (genTopK input)).1 ++
    ((getDocumentsDirectlyFromSupabase env).1 ++
      match (getDocumentsDirectlyFromSupabase env).2 with
      | Except.error m => [genCatchAll planId m]
      | Except.ok documents2 =>
        if documents2.isEmpty then
          [GenAction.emit (GenEvent.workoutPlanError
            { planId := planId, error := some noDocsMsg, status := some "failed",
              step := some "Failed to retrieve documents",
              message := some noDocsMsg, progress := some 0 })]
        else genAfterDocs env planId)) = _
  rw [hdd]
  rfl

/-- The finalize stages when the model output cannot be used (extraction
not truthy, or schema validation fails or throws) and the save succeeds:
the job completes with the fallback plan, the fallback message, and a
non-empty error field. -/
theorem genFinalize_fallback (env : GenEnv) (planId txt : String)
    (hsave : env.savePlan = Except.ok ())
    (hfail : optTruthy (extractJsonFromText txt) = false ∨
      (∃ j, extractJsonFromText txt = some j ∧ jsTruthy j = true ∧
        (env.validatePlan j = Except.ok false ∨ ∃ e, env.validatePlan j = Except.error e))) :
    ∃ emsg, genFinalize env planId txt =
      [GenAction.callSave, GenAction.emit (GenEvent.workoutPlanComplete
        { planId := planId, status := some "completed", progress := some 100,
          step := some "Workout plan generation completed and saved",
          result := some generateMinimalValidPlan,
          message := some "Workout plan generation had issues (parsing or validation failed), using fallback plan.",
          error := some emsg })] := by
  rcases hfail with hf | ⟨j, hj, htr, hval⟩
  · cases hx : extractJsonFromText txt with
    | none =>
      refine ⟨"Parsing failed: " ++
        "Failed to extract valid JSON from the LLM response (extractJsonFromText returned null).", ?_⟩
      simp only [genFinalize, hx, hsave]
      simp [optTruthy]
    | some j =>
      have hjf : jsTruthy j = false := by
        rw [hx] at hf
        simpa [optTruthy] using hf
      refine ⟨"Parsing failed: " ++
        "Failed to extract valid JSON from the LLM response (extractJsonFromText returned null).", ?_⟩
      simp only [genFinalize, hx, hsave]
      simp [optTruthy, hjf]
  · rcases hval with hv | ⟨e, he⟩
    · refine ⟨"Validation failed: " ++ "Schema validation failed.", ?_⟩
      simp only [genFinalize, hj, hsave, hv]
      simp [optTruthy, htr]
    · refine ⟨"Validation failed: " ++ e, ?_⟩
      simp only [genFinalize, hj, hsave, he]
      simp [optTruthy, htr]

/-- Claim C1 as amended (proved): once documents were retrieved (by either
strategy), the prompt loaded, streaming finished AND the subsequent save
succeeds, a job whose extraction returns nothing truthy — or whose schema
validation fails or throws — still completes: the final event is
`workoutPlanComplete` with status `completed`, the hand-authored minimal
valid plan as result, the fallback message, and a non-empty error field
identifying the parsing or validation failure. -/
theorem gen_fallback_completes (env : GenEnv) (planId txt : String)
    (input : WorkoutPlanInput) (ds : List Doc)
    (hprimary : (getDocumentsFromFileIds env input.fileIds (genTopK input)).2
      = Except.ok ds)
    (hdocs : ds ≠ [] ∨ (ds = [] ∧ ∃ ds2, env.directQuery = Except.ok ds2 ∧ ds2 ≠ []))
    (hprompt : env.promptLoad = Except.ok ())
    (htxt : env.streamChat = Except.ok txt)
    (hsave : env.savePlan = Except.ok ())
    (hfail : optTruthy (extractJsonFromText txt) = false ∨
      (∃ j, extractJsonFromText txt = some j ∧ jsTruthy j = true ∧
        (env.validatePlan j = Except.ok false ∨ ∃ e, env.validatePlan j = Except.error e))) :
    ∃ emsg, (genEmitted (generateWorkoutPlan env planId input)).getLast?
      = some (GenEvent.workoutPlanComplete
        { planId := planId, status := some "completed", progress := some 100,
          step := some "Workout plan generation completed and saved",
          result := some generateMinimalValidPlan,
          message := some "Workout plan generation had issues (parsing or validation failed), using fallback plan.",
          error := some emsg }) := by
  obtain ⟨emsg, hfin⟩ := genFinalize_fallback env planId txt hsave hfail
  refine ⟨emsg, ?_⟩
  have hafter := genAfterDocs_ok env planId txt hprompt htxt
  rcases hdocs with hne | ⟨rfl, ds2, hd, hne2⟩
  · obtain ⟨d, rest, rfl⟩ := List.exists_cons_of_ne_nil hne
    rw [generateWorkoutPlan_primary_nonempty env planId input d rest hprimary,
      hafter, hfin]
    rfl
  · obtain ⟨d, rest, rfl⟩ := List.exists_cons_of_ne_nil hne2
    rw [generateWorkoutPlan_fallback_nonempty env planId input d rest hprimary hd,
      hafter, hfin]
    rfl

/-- Environment for the C1 counterexample: one document retrieved, stream
finished with truncated JSON, but the Supabase save rejects. -/
def envSaveFail : GenEnv :=
  { similaritySearch := fun _ =>
      Except.ok [{ pageContent := "doc", fileId := some "f1" }],
    directQuery := Except.ok [],
    promptLoad := Except.ok (),
    streamChat := Except.ok "\x7b\"a\":1",
    validatePlan := fun _ => Except.ok true,
    savePlan := Except.error "Failed to save workout plan" }

/-- Counterexample to claim C1 as stated: a model response string was
obtained (a document was retrieved, the stream finished) and JSON
extraction returns null, yet because the subsequent save fails the job
never reaches `completed` — it emits a terminal `workoutPlanError`
instead.  The claim needs the persistence-success proviso the spec's own
hard-failure sentence carves out. -/
theorem gen_fallback_save_fail_counterexample :
    (getDocumentsFromFileIds envSaveFail ["f1"] 8).2
      = Except.ok [{ pageContent := "doc", fileId := some "f1" }] ∧
    envSaveFail.streamChat = Except.ok "\x7b\"a\":1" ∧
    extractJsonFromText "\x7b\"a\":1" = none ∧
    (genEmitted (generateWorkoutPlan envSaveFail "plan-1"
      { query := "q", fileIds := ["f1"] })).any isGenComplete = false ∧
    (genEmitted (generateWorkoutPlan envSaveFail "plan-1"
      { query := "q", fileIds := ["f1"] })).getLast?
      = some (GenEvent.workoutPlanError
        { planId := "plan-1", error := some "Failed to save workout plan",
          status := some "failed", step := some "Failed to save workout plan",
          message := some "An error occurred while saving the workout plan.",
          progress := some 0 }) :=
  ⟨rfl, rfl, rfl, rfl, rfl⟩

/-- Environment for the C1 witness: same as the counterexample but the
save succeeds. -/
def envFallbackOk : GenEnv :=
  { similaritySearch := fun _ =>
      Except.ok [{ pageContent := "doc", fileId := some "f1" }],
    directQuery := Except.ok [],
    promptLoad := Except.ok (),
    streamChat := Except.ok "\x7b\"a\":1",
    validatePlan := fun _ => Except.ok true,
    savePlan := Except.ok () }

/-- Witness for the amended C1: with the save succeeding and extraction
failing on the truncated response, the job's last event is a completion
carrying the fallback plan and the fallback message. -/
theorem gen_fallback_completes_witness :
    ∃ emsg, (genEmitted (generateWorkoutPlan envFallbackOk "plan-1"
      { query := "q", fileIds := ["f1"] })).getLast?
      = some (GenEvent.workoutPlanComplete
        { planId := "plan-1", status := some "completed", progress := some 100,
          step := some "Workout plan generation completed and saved",
          result := some generateMinimalValidPlan,
          message := some "Workout plan generation had issues (parsing or validation failed), using fallback plan.",
          error := some emsg }) :=
  gen_fallback_completes envFallbackOk "plan-1" "\x7b\"a\":1"
    { query := "q", fileIds := ["f1"] }
    [{ pageContent := "doc", fileId := some "f1" }] rfl
    (Or.inl (by simp)) rfl rfl rfl (Or.inl (by rfl))

/-! ## Claim C9 -/

theorem jsRound_mono {q r : ℚ} (h : q ≤ r) : jsRound q ≤ jsRound r :=
  Int.floor_le_floor (by linarith)

theorem jsRound_zero : jsRound 0 = 0 := by
  have h : ((0 : ℚ) + 1 / 2) = 1 / 2 := by norm_num
  rw [jsRound, h]
  exact Int.floor_eq_zero_iff.mpr ⟨by norm_num, by norm_num⟩

theorem jsRound_100 : jsRound 100 = 100 := by
  rw [jsRound]
  exact Int.floor_eq_iff.mpr ⟨by norm_num, by norm_num⟩

theorem jsRound_nonneg {q : ℚ} (h : 0 ≤ q) : 0 ≤ jsRound q := by
  have := jsRound_mono h
  rwa [jsRound_zero] at this

theorem jsRound_le_100 {q : ℚ} (h : q ≤ 100) : jsRound q ≤ 100 := by
  have := jsRound_mono h
  rwa [jsRound_100] at this

/-- Under a successful save, the finalize stages are the save call and a
single completion event at progress 100, whatever extraction and
validation produced. -/
theorem genFinalize_save_ok (env : GenEnv) (planId txt : String)
    (hsave : env.savePlan = Except.ok ()) :
    ∃ p : GenPayload,
      genFinalize env planId txt =
        [GenAction.callSave, GenAction.emit (GenEvent.workoutPlanComplete p)] ∧
      p.progress = some 100 ∧ p.status = some "completed" := by
  unfold genFinalize
  rw [hsave]
  exact ⟨_, rfl, rfl, rfl⟩

/-- The percent values carried by the `uploadProgress` emissions, in order. -/
def uploadPercents (ems : List Emission) : List ℤ :=
  ems.filterMap (fun em =>
    match em.ev with
    | UpEvent.uploadProgress _ d => some d.percent
    | _ => none)

theorem uploadPercents_append (xs ys : List Emission) :
    uploadPercents (xs ++ ys) = uploadPercents xs ++ uploadPercents ys := by
  simp [uploadPercents]

theorem runProgressCalls_percents (uploadId : String) (now : ℤ) (e : ℚ)
    (he : 0 < e) (bs : List ℚ) :
    ∀ m, uploadPercents (runProgressCalls m uploadId now
        (bs.map (fun b => (b, e)))).2
      = bs.map (fun b => jsRound (b / e * 100)) := by
  induction bs with
  | nil => intro m; rfl
  | cons b rest ih =>
    intro m
    simp only [List.map_cons, runProgressCalls]
    rw [uploadPercents_append, ih]
    simp [updateUploadProgress, uploadPercents, he]

/-- The rounded percent sequence of a monotone, in-range byte sequence is
monotone, starts at or above the initial 0 and ends at or below the final
forced 100. -/
theorem chain_round_seq (e : ℚ) (he : 0 < e) (bs : List ℚ)
    (hmono : List.Chain' (· ≤ ·) bs) (hb : ∀ b ∈ bs, 0 ≤ b ∧ b ≤ e) :
    List.Chain' (· ≤ ·)
      ((0 : ℤ) :: bs.map (fun b => jsRound (b / e * 100)) ++ [100]) := by
  have hbound : ∀ x ∈ bs.map (fun b => jsRound (b / e * 100)), 0 ≤ x ∧ x ≤ 100 := by
    intro x hx
    obtain ⟨b, hbmem, rfl⟩ := List.mem_map.mp hx
    obtain ⟨hb0, hbe⟩ := hb b hbmem
    constructor
    · exact jsRound_nonneg (by positivity)
    · refine jsRound_le_100 ?_
      have h1 : b / e ≤ 1 := (div_le_one he).mpr hbe
      nlinarith
  have hchain : List.Chain' (· ≤ ·) (bs.map (fun b => jsRound (b / e * 100))) := by
    rw [List.chain'_map]
    refine hmono.imp ?_
    intro a b hab
    exact jsRound_mono (by gcongr)
  rw [show ((0 : ℤ) :: bs.map (fun b => jsRound (b / e * 100)) ++ [100])
      = ((0 : ℤ) :: bs.map (fun b => jsRound (b / e * 100))) ++ [100] from rfl]
  rw [List.chain'_append]
  refine ⟨?_, List.chain'_singleton _, ?_⟩
  · rw [List.chain'_cons']
    refine ⟨?_, hchain⟩
    intro y hy
    have : y ∈ bs.map (fun b => jsRound (b / e * 100)) := List.mem_of_mem_head? hy
    exact (hbound y this).1
  · intro x hx y hy
    simp at hy
    subst hy
    cases hL : bs.map (fun b => jsRound (b / e * 100)) with
    | nil =>
      rw [hL] at hx
      simp at hx
      omega
    | cons z zs =>
      rw [hL] at hx
      rw [List.getLast?_cons_cons] at hx
      have hxmem : x ∈ z :: zs := List.mem_of_mem_getLast? hx
      rw [← hL] at hxmem
      exact (hbound x hxmem).2

/-- Claim C9 (confirmed): on a successful path, the progress/percent
sequence over a job's lifetime is monotonically non-decreasing from 0 at
job creation.  For a generation job the emitted sequence is exactly
0 (acceptance), 5, 15, 30, 40, 70, 100.  For an upload job whose
transport reports a non-decreasing byte count bounded by a fixed positive
expected total, the stored-and-emitted percent sequence — 0 at
initialization, the rounded ratio at each callback, and the forced 100 at
completion (also stored) — is monotone. -/
theorem progress_monotone :
    (∀ (env : GenEnv) (planId txt : String) (input : WorkoutPlanInput) (ds : List Doc),
      (getDocumentsFromFileIds env input.fileIds (genTopK input)).2 = Except.ok ds →
      (ds ≠ [] ∨ (ds = [] ∧ ∃ ds2, env.directQuery = Except.ok ds2 ∧ ds2 ≠ [])) →
      env.promptLoad = Except.ok () →
      env.streamChat = Except.ok txt →
      env.savePlan = Except.ok () →
      genProgressSeq (genEmitted (createWorkoutPlanTrace env planId input))
        = [0, 5, 15, 30, 40, 70, 100] ∧
      List.Chain' (· ≤ ·)
        (genProgressSeq (genEmitted (createWorkoutPlanTrace env planId input)))) ∧
    (∀ (m : List (String × UploadData)) (uploadId : String) (now : ℤ) (e : ℚ)
       (bs : List ℚ) (rd : Option ResultData),
      0 < e → List.Chain' (· ≤ ·) bs → (∀ b ∈ bs, 0 ≤ b ∧ b ≤ e) →
      (∃ d : UploadData,
        jsMapGet (completeUpload
          (runProgressCalls (initUploadProgress m uploadId now) uploadId now
            (bs.map (fun b => (b, e)))).1 uploadId rd).1 uploadId = some d ∧
        d.percent = 100 ∧ d.completed = true) ∧
      List.Chain' (· ≤ ·)
        ((0 : ℤ) :: uploadPercents
          (runProgressCalls (initUploadProgress m uploadId now) uploadId now
            (bs.map (fun b => (b, e)))).2 ++ [100])) := by
  constructor
  · intro env planId txt input ds hprimary hdocs hprompt htxt hsave
    obtain ⟨p, hfin, hp100, hpstat⟩ := genFinalize_save_ok env planId txt hsave
    have hafter := genAfterDocs_ok env planId txt hprompt htxt
    have hseq : genProgressSeq (genEmitted (createWorkoutPlanTrace env planId input))
        = [0, 5, 15, 30, 40, 70, 100] := by
      unfold createWorkoutPlanTrace
      rcases hdocs with hne | ⟨rfl, ds2, hd, hne2⟩
      · obtain ⟨d, rest, rfl⟩ := List.exists_cons_of_ne_nil hne
        rw [generateWorkoutPlan_primary_nonempty env planId input d rest hprimary,
          hafter, hfin]
        simp [genProgressSeq, genEmitted, genPayloadOf, acceptedPayload,
          genP5, genP15, genP30, genP40, genP70, hp100]
      · obtain ⟨d, rest, rfl⟩ := List.exists_cons_of_ne_nil hne2
        rw [generateWorkoutPlan_fallback_nonempty env planId input d rest hprimary hd,
          hafter, hfin]
        simp [genProgressSeq, genEmitted, genPayloadOf, acceptedPayload,
          genP5, genP15, genP30, genP40, genP70, hp100]
    refine ⟨hseq, ?_⟩
    rw [hseq]
    norm_num [List.chain'_cons', List.chain'_singleton]
    intro y h
    cases h
  · intro m uploadId now e bs rd he hmono hb
    have hsome := runProgressCalls_preserves uploadId now (bs.map (fun b => (b, e)))
      (initUploadProgress m uploadId now) (by simp [initUploadProgress, jsMapGet_set_self])
    constructor
    · cases hm : jsMapGet (runProgressCalls (initUploadProgress m uploadId now)
          uploadId now (bs.map (fun b => (b, e)))).1 uploadId with
      | none => rw [hm] at hsome; exact Bool.noConfusion hsome
      | some d0 =>
        refine ⟨{ d0 with completed := true, percent := 100, resultData := rd }, ?_, rfl, rfl⟩
        simp [completeUpload, hm, jsMapGet_set_self]
    · rw [runProgressCalls_percents uploadId now e he bs]
      exact chain_round_seq e he bs hmono hb

/-- Witness for C9 at concrete inputs: the fallback-free generation
environment yields 0,5,15,30,40,70,100, and an upload receiving 25, 50
then 100 of 100 expected bytes has a monotone percent history ending in
the forced 100. -/
theorem progress_monotone_witness :
    (genProgressSeq (genEmitted (createWorkoutPlanTrace envFallbackOk "plan-1"
        { query := "q", fileIds := ["f1"] }))
      = [0, 5, 15, 30, 40, 70, 100] ∧
     List.Chain' (· ≤ ·)
       (genProgressSeq (genEmitted (createWorkoutPlanTrace envFallbackOk "plan-1"
         { query := "q", fileIds := ["f1"] })))) ∧
    ((∃ d : UploadData,
        jsMapGet (completeUpload
          (runProgressCalls (initUploadProgress [] "u1" 5) "u1" 5
            (([25, 50, 100] : List ℚ).map (fun b => (b, (100 : ℚ))))).1 "u1"
          (some { message := "m", filename := "f", fileId := "i", status := "uploaded" })).1
          "u1" = some d ∧
        d.percent = 100 ∧ d.completed = true) ∧
     List.Chain' (· ≤ ·)
       ((0 : ℤ) :: uploadPercents
         (runProgressCalls (initUploadProgress [] "u1" 5) "u1" 5
           (([25, 50, 100] : List ℚ).map (fun b => (b, (100 : ℚ))))).2 ++ [100])) :=
  ⟨progress_monotone.1 envFallbackOk "plan-1" "\x7b\"a\":1"
      { query := "q", fileIds := ["f1"] }
      [{ pageContent := "doc", fileId := some "f1" }] rfl
      (Or.inl (by simp)) rfl rfl rfl,
   progress_monotone.2 [] "u1" 5 100 [25, 50, 100]
      (some { message := "m", filename := "f", fileId := "i", status := "uploaded" })
      (by norm_num)
      (by constructor <;> norm_num [List.Chain'])
      (by intro b hb; simp at hb; rcases hb with rfl | rfl | rfl <;> norm_num)⟩
